import Mathlib

/-!
# Object types, objects and collections of the goracle driver (`src/obj.go`)

A shallow embedding of `src/obj.go`.  Every call into the native ODPI-C bridge is
an explicit step: the bridge is an arbitrary deterministic responder `Env` whose
answers may depend on the full history of earlier calls (`Trace`), and every
operation returns the extended history, so "which native calls were made, and
how often" is a statement about lists.

Conventions
* a C / Go pointer is an `Option`; `none` is the nil pointer;
* a Go `map` is an association list with unique keys, `none` being the nil map;
  `range` over it visits the entries in list order (Go leaves the order open,
  and the list is arbitrary);
* a Go `error` is `Option GoError`, `none` being the nil error;
* `errors.Errorf("<op>(...): %w", err)` is `GoError.wrap "<op>" err`: the label
  keeps the operation text of the format string and drops the printed arguments;
* a Go panic is `Res.panic`; loops and recursions whose length is decided by the
  bridge take a fuel argument and give `Res.fuelOut` when it is used up.
-/

set_option autoImplicit false

namespace Goracle

/-! ## Data model -/

/-- A native pointer (`*C.dpiObject`, `*C.dpiObjectType`, `*C.dpiObjectAttr`, `*C.dpiConn`). -/
abbrev Handle := Option Nat

/-- Go `error` values that `obj.go` can produce. -/
inductive GoError where
  /-- The sentinel `ErrNoSuchKey = errors.New("no such key")`. -/
  | ErrNoSuchKey
  /-- The sentinel `ErrNotCollection = errors.New("not collection")`. -/
  | ErrNotCollection
  /-- The sentinel `ErrNotExist = errors.New("not exist")`. -/
  | ErrNotExist
  /-- The structured error of the bridge (code and message), as given by `getError()`. -/
  | ora (code : Int) (message : String)
  /-- Some other `errors.New(text)`. -/
  | new (text : String)
  /-- The error `errors.Errorf("<label>...: %w", inner)`. -/
  | wrap (label : String) (inner : GoError)
deriving DecidableEq, Repr

/-- The C struct `dpiData`, reduced to what `obj.go` touches: the null flag, the
length of the byte buffer installed by `dpiData_setBytes`, and the payload. -/
structure DpiData where
  isNull : Int
  asBytesLength : Nat
  payload : Int
deriving DecidableEq, Repr

/-- The type `ObjectAttribute` of `obj.go`, over the type `T` of its embedded `ObjectType`. -/
structure ObjectAttributeOf (T : Type) where
  Name : String
  dpiObjectAttr : Handle
  ObjectType : T

/-- The type `ObjectType` of `obj.go`.  `conn` is the `*conn` pointer (the
identity of the owning connection). -/
structure ObjectType where
  dpiObjectType : Handle
  conn : Option Nat
  Schema : String
  Name : String
  DBSize : Int
  ClientSizeInBytes : Int
  CharSize : Int
  CollectionOf : Option ObjectType
  Attributes : Option (List (String × ObjectAttributeOf ObjectType))
  OracleTypeNum : Nat
  NativeTypeNum : Nat
  Precision : Int
  Scale : Int
  FsPrecision : Nat

/-- The type `ObjectAttribute` of `obj.go`. -/
abbrev ObjectAttribute := ObjectAttributeOf ObjectType

/-- The Go zero value `ObjectType{}`. -/
def ObjectType.zero : ObjectType :=
  { dpiObjectType := none, conn := none, Schema := "", Name := "", DBSize := 0,
    ClientSizeInBytes := 0, CharSize := 0, CollectionOf := none, Attributes := none,
    OracleTypeNum := 0, NativeTypeNum := 0, Precision := 0, Scale := 0, FsPrecision := 0 }

/-- The Go zero value `ObjectAttribute{}`, which a map lookup gives for a missing key. -/
def ObjectAttribute.zero : ObjectAttribute :=
  { Name := "", dpiObjectAttr := none, ObjectType := ObjectType.zero }

/-- The type `Data` (declared outside `obj.go`), reduced to the fields `obj.go` uses. -/
structure Data where
  ObjectType : ObjectType
  NativeTypeNum : Nat
  dpiData : Option DpiData

/-- The Go zero value `Data{}` (`var data Data`). -/
def Data.zero : Data :=
  { ObjectType := ObjectType.zero, NativeTypeNum := 0, dpiData := none }

/-- The type `Object` of `obj.go`. -/
structure Object where
  ObjectType : ObjectType
  scratch : Data
  dpiObject : Handle

/-- The type `ObjectCollection` of `obj.go`: a wrapper of one `*Object`. -/
structure ObjectCollection where
  Object : Object

/-- The type `conn`, reduced to what `obj.go` uses: its identity as a pointer, the
native connection and the cache `objTypes`. -/
structure conn where
  id : Nat
  dpiConn : Handle
  objTypes : Option (List (String × ObjectType))

/-- An application-level value decoded by `Data.Get()`. -/
inductive GoVal where
  | null
  | int (v : Int)
  | object (h : Handle)
deriving DecidableEq, Repr

/-- The C struct `dpiDataTypeInfo`. -/
structure DataTypeInfo where
  oracleTypeNum : Nat
  defaultNativeTypeNum : Nat
  dbSizeInBytes : Nat
  clientSizeInBytes : Nat
  sizeInChars : Nat
  precision : Int
  scale : Int
  fsPrecision : Nat
  objectType : Handle
deriving DecidableEq, Repr

/-- The C struct `dpiObjectTypeInfo`. -/
structure ObjectTypeInfo where
  schema : String
  name : String
  isCollection : Int
  elementTypeInfo : DataTypeInfo
  numAttributes : Nat
deriving DecidableEq, Repr

/-- The C struct `dpiObjectAttrInfo`. -/
structure ObjectAttrInfo where
  name : String
  typeInfo : DataTypeInfo
deriving DecidableEq, Repr

/-! ## The bridge -/

/-- One call into the native bridge, with the arguments `obj.go` passes. -/
inductive Call where
  | dpiConn_getObjectType (c : Handle) (name : String)
  | dpiObjectType_getInfo (t : Handle)
  | dpiObjectType_getAttributes (t : Handle) (n : Nat)
  | dpiObjectAttr_getInfo (a : Handle)
  | dpiObjectType_createObject (t : Handle)
  | dpiObjectType_release (t : Handle)
  | dpiObjectAttr_release (a : Handle)
  | dpiObject_release (o : Handle)
  | dpiObject_addRef (o : Handle)
  | dpiObject_getAttributeValue (o : Handle) (a : Handle) (nativeTypeNum : Nat)
  | dpiObject_setAttributeValue (o : Handle) (a : Handle) (nativeTypeNum : Nat)
  | dpiObject_appendElement (o : Handle) (nativeTypeNum : Nat)
  | dpiObject_deleteElementByIndex (o : Handle) (i : Int)
  | dpiObject_getElementExistsByIndex (o : Handle) (i : Int)
  | dpiObject_getElementValueByIndex (o : Handle) (i : Int) (nativeTypeNum : Nat)
  | dpiObject_setElementValueByIndex (o : Handle) (i : Int) (nativeTypeNum : Nat)
  | dpiObject_getFirstIndex (o : Handle)
  | dpiObject_getLastIndex (o : Handle)
  | dpiObject_getNextIndex (o : Handle) (i : Int)
  | dpiObject_getSize (o : Handle)
  | dpiObject_trim (o : Handle) (n : Nat)
deriving DecidableEq, Repr

/-- The history of bridge calls, oldest first. -/
abbrev Trace := List Call

/-- Everything `obj.go` calls and does not define.  The `dpi...` fields are the
ODPI-C functions: each sees the history of earlier calls and its own arguments;
a `Bool` answer is `true` for `DPI_SUCCESS`, an `Option` answer is `none` for
`DPI_FAILURE` and otherwise holds the values written through the out-pointers.
`ToUpper` is `strings.ToUpper`; `reset`, `Get` are the methods `Data.reset`,
`Data.Get`; `oraErr` is the code and message that `conn.getError()` retrieves. -/
structure Env where
  ToUpper : String → String
  reset : Data → Data
  Get : Data → GoVal
  oraErr : Trace → Int × String
  dpiConn_getObjectType : Trace → Handle → String → Option Handle
  dpiObjectType_getInfo : Trace → Handle → Option ObjectTypeInfo
  dpiObjectType_getAttributes : Trace → Handle → Nat → Option (List Handle)
  dpiObjectAttr_getInfo : Trace → Handle → Option ObjectAttrInfo
  dpiObjectType_createObject : Trace → Handle → Option Handle
  dpiObjectType_release : Trace → Handle → Bool
  dpiObjectAttr_release : Trace → Handle → Bool
  dpiObject_release : Trace → Handle → Bool
  dpiObject_addRef : Trace → Handle → Bool
  dpiObject_getAttributeValue : Trace → Handle → Handle → Nat → Option DpiData → Option DpiData
  dpiObject_setAttributeValue : Trace → Handle → Handle → Nat → Option DpiData → Bool
  dpiObject_appendElement : Trace → Handle → Nat → Option DpiData → Bool
  dpiObject_deleteElementByIndex : Trace → Handle → Int → Bool
  dpiObject_getElementExistsByIndex : Trace → Handle → Int → Option Int
  dpiObject_getElementValueByIndex : Trace → Handle → Int → Nat → Option DpiData → Option DpiData
  dpiObject_setElementValueByIndex : Trace → Handle → Int → Nat → Option DpiData → Bool
  dpiObject_getFirstIndex : Trace → Handle → Option (Int × Int)
  dpiObject_getLastIndex : Trace → Handle → Option (Int × Int)
  dpiObject_getNextIndex : Trace → Handle → Int → Option (Int × Int)
  dpiObject_getSize : Trace → Handle → Option Int
  dpiObject_trim : Trace → Handle → Nat → Bool

/-- Modelled from the spec: `conn.getError()`, which is not in `obj.go`; the
structured error retrieval call "returning a code and message", made right
after the failed bridge call. -/
def getError (E : Env) (tr : Trace) : GoError :=
  GoError.ora (E.oraErr tr).1 (E.oraErr tr).2

/-- The result of an operation that may panic or whose length the bridge decides. -/
inductive Res (α : Type) where
  /-- Normal return, with the history of bridge calls so far. -/
  | ret (val : α) (tr : Trace)
  /-- A Go panic with its message. -/
  | panic (msg : String)
  /-- The fuel of the model was used up. -/
  | fuelOut

/-- The constant `DPI_NATIVE_TYPE_BYTES` of `dpi.h`. -/
def DPI_NATIVE_TYPE_BYTES : Nat := 3004

/-- The constant `DPI_NATIVE_TYPE_OBJECT` of `dpi.h`. -/
def DPI_NATIVE_TYPE_OBJECT : Nat := 3009

/-- The constant `DPI_ORACLE_TYPE_NUMBER` of `dpi.h`. -/
def DPI_ORACLE_TYPE_NUMBER : Nat := 2010

/-- The conversion `C.int32_t(i)` of a Go `int`: two's complement wrap-around. -/
def toInt32 (i : Int) : Int := (i + 2 ^ 31) % 2 ^ 32 - 2 ^ 31

/-- The conversion `C.uint32_t(n)` of a Go `int`. -/
def toUint32 (n : Int) : Nat := (n % 2 ^ 32).toNat

/-- The ODPI-C helper `dpiData_setBytes(data, ptr, length)`: marks the value
non-null and installs a byte buffer of the given length.  A nil `data` is a
nil dereference in C, which the callers below turn into a crash. -/
def dpiData_setBytes (d : DpiData) (length : Nat) : DpiData :=
  { d with isNull := 0, asBytesLength := length }

/-! ## Go maps as association lists -/

/-- The lookup `m[k]` with the comma-ok result, on a possibly nil map. -/
def mapLookup {β : Type} (k : String) : Option (List (String × β)) → Option β
  | none => none
  | some l => (l.find? (fun p => p.1 == k)).map Prod.snd

/-- The assignment to an entry of a list of entries: replaces the entry of `k` or adds one. -/
def entriesInsert {β : Type} (k : String) (v : β) : List (String × β) → List (String × β)
  | [] => [(k, v)]
  | p :: l => if p.1 == k then (k, v) :: l else p :: entriesInsert k v l

/-- The assignment `m[k] = v` on a non-nil map. -/
def mapInsert {β : Type} (k : String) (v : β) (m : List (String × β)) : List (String × β) :=
  entriesInsert k v m

/-- The double quote character, code point 34. -/
def quoteChar : Char := Char.ofNat 34

/-- The test of `strings.Contains` for a double quote in `name`. -/
def containsQuote (name : String) : Bool := name.data.contains quoteChar

/-- The name normalisation written out in both `SetAttribute` and `GetObjectType`:
a name without a double quote is replaced by `strings.ToUpper(name)`. -/
def normalizeName (E : Env) (name : String) : String :=
  if containsQuote name then name else E.ToUpper name

/-! ## Object: attribute access and release (`obj.go` lines 47-169) -/

/-- The method `(*Object).GetAttribute(data, name)`.  The receiver may be the nil
pointer; `data` is the content of `*data`, returned updated. -/
def Object.GetAttribute (E : Env) (O : Option Object) (data : Data) (name : String)
    (tr : Trace) : Res (Data × Option GoError) :=
  match O with
  | none => Res.panic "nil dpiObject"
  | some O =>
    if O.dpiObject = none then Res.panic "nil dpiObject"
    else
      match mapLookup name O.ObjectType.Attributes with
      | none => Res.ret (data, some (GoError.wrap name GoError.ErrNoSuchKey)) tr
      | some attr =>
        let d1 := E.reset data
        let buf : DpiData := match d1.dpiData with
          | none => { isNull := 0, asBytesLength := 0, payload := 0 }
          | some b => b
        let buf := if attr.ObjectType.NativeTypeNum = DPI_NATIVE_TYPE_BYTES ∧
            attr.ObjectType.OracleTypeNum = DPI_ORACLE_TYPE_NUMBER
          then dpiData_setBytes buf 39 else buf
        let d2 : Data := { ObjectType := attr.ObjectType,
                           NativeTypeNum := attr.ObjectType.NativeTypeNum,
                           dpiData := some buf }
        let tr1 := tr ++ [Call.dpiObject_getAttributeValue O.dpiObject attr.dpiObjectAttr
                            d2.NativeTypeNum]
        match E.dpiObject_getAttributeValue tr O.dpiObject attr.dpiObjectAttr
                d2.NativeTypeNum d2.dpiData with
        | none => Res.ret (d2, some (GoError.wrap "getAttributeValue" (getError E tr1))) tr1
        | some b => Res.ret ({ d2 with dpiData := some b }, none) tr1

/-- The attribute that `SetAttribute(name, ..)` addresses: `O.Attributes[name]`
for the normalised name, the zero `ObjectAttribute` when the key is missing. -/
def Object.setAttributeTarget (E : Env) (O : Object) (name : String) : ObjectAttribute :=
  (mapLookup (normalizeName E name) O.ObjectType.Attributes).getD ObjectAttribute.zero

/-- The defaulting of `SetAttribute`: a `data` whose `NativeTypeNum` is 0 takes
the native type and the object type of the attribute. -/
def Object.setAttributeData (attr : ObjectAttribute) (data : Data) : Data :=
  if data.NativeTypeNum = 0
  then { data with NativeTypeNum := attr.ObjectType.NativeTypeNum, ObjectType := attr.ObjectType }
  else data

/-- The method `(*Object).SetAttribute(name, data)`; returns `*data` as left by the call. -/
def Object.SetAttribute (E : Env) (O : Object) (name : String) (data : Data)
    (tr : Trace) : Data × Option GoError × Trace :=
  let attr := Object.setAttributeTarget E O name
  let data := Object.setAttributeData attr data
  let tr1 := tr ++ [Call.dpiObject_setAttributeValue O.dpiObject attr.dpiObjectAttr
                      data.NativeTypeNum]
  if E.dpiObject_setAttributeValue tr O.dpiObject attr.dpiObjectAttr data.NativeTypeNum
      data.dpiData
  then (data, none, tr1)
  else (data, some (getError E tr1), tr1)

/-- The buffer set-up of one iteration of `ResetAttributes`: for a `NUMBER`
attribute fetched as bytes, `a := make([]byte, attr.Precision)` and
`dpiData_setBytes(data.dpiData, &a[0], attr.Precision)`.  The result is `none`
when this crashes: `make` and `&a[0]` need a positive length, and
`dpiData_setBytes` dereferences `data.dpiData`. -/
def Object.resetBuffer (attr : ObjectAttribute) (data : Data) : Option Data :=
  if attr.ObjectType.NativeTypeNum = DPI_NATIVE_TYPE_BYTES ∧
      attr.ObjectType.OracleTypeNum = DPI_ORACLE_TYPE_NUMBER then
    if attr.ObjectType.Precision ≤ 0 then none
    else
      match data.dpiData with
      | none => none
      | some b =>
        some { data with
          dpiData := some (dpiData_setBytes b (toUint32 attr.ObjectType.Precision)) }
  else some data

/-- The `range O.Attributes` loop of `ResetAttributes`, over the entries still
to visit; `data` is the local `var data Data`. -/
def Object.ResetAttributesLoop (E : Env) (dpiObject : Handle) :
    List (String × ObjectAttribute) → Data → Trace → Res (Option GoError)
  | [], _, tr => Res.ret none tr
  | (_, attr) :: rest, data, tr =>
    let d1 := E.reset data
    let d2 : Data := { d1 with NativeTypeNum := attr.ObjectType.NativeTypeNum,
                               ObjectType := attr.ObjectType }
    match Object.resetBuffer attr d2 with
    | none => Res.panic "ResetAttributes: byte buffer"
    | some d3 =>
      let tr1 := tr ++ [Call.dpiObject_setAttributeValue dpiObject attr.dpiObjectAttr
                          d3.NativeTypeNum]
      if E.dpiObject_setAttributeValue tr dpiObject attr.dpiObjectAttr d3.NativeTypeNum
          d3.dpiData
      then Object.ResetAttributesLoop E dpiObject rest d3 tr1
      else Res.ret (some (getError E tr1)) tr1

/-- The method `(*Object).ResetAttributes()`. -/
def Object.ResetAttributes (E : Env) (O : Object) (tr : Trace) : Res (Option GoError) :=
  Object.ResetAttributesLoop E O.dpiObject (O.ObjectType.Attributes.getD []) Data.zero tr

/-- The method `(*Object).Collection()`. -/
def Object.Collection (O : Object) : Option ObjectCollection :=
  match O.ObjectType.CollectionOf with
  | none => none
  | some _ => some { Object := O }

/-- The method `(*Object).Close()`; returns the object as left by the call. -/
def Object.Close (E : Env) (O : Object) (tr : Trace) : Object × Option GoError × Trace :=
  if O.dpiObject = none then (O, none, tr)
  else
    let tr1 := tr ++ [Call.dpiObject_release O.dpiObject]
    if E.dpiObject_release tr O.dpiObject
    then ({ O with dpiObject := none }, none, tr1)
    else (O, some (GoError.wrap "error on close object" (getError E tr1)), tr1)

/-! ## ObjectCollection (`obj.go` lines 171-350) -/

/-- The method `(*ObjectCollection).AppendData(data)`. -/
def ObjectCollection.AppendData (E : Env) (O : ObjectCollection) (data : Data)
    (tr : Trace) : Option GoError × Trace :=
  let tr1 := tr ++ [Call.dpiObject_appendElement O.Object.dpiObject data.NativeTypeNum]
  if E.dpiObject_appendElement tr O.Object.dpiObject data.NativeTypeNum data.dpiData
  then (none, tr1)
  else (some (GoError.wrap "append" (getError E tr1)), tr1)

/-- The method `(*ObjectCollection).Delete(i)`. -/
def ObjectCollection.Delete (E : Env) (O : ObjectCollection) (i : Int)
    (tr : Trace) : Option GoError × Trace :=
  let tr1 := tr ++ [Call.dpiObject_deleteElementByIndex O.Object.dpiObject (toInt32 i)]
  if E.dpiObject_deleteElementByIndex tr O.Object.dpiObject (toInt32 i)
  then (none, tr1)
  else (some (GoError.wrap "delete" (getError E tr1)), tr1)

/-- The method `(*ObjectCollection).GetItem(data, i)`; `data` is the pointer
argument, `none` being nil, and the content of `*data` is returned updated. -/
def ObjectCollection.GetItem (E : Env) (O : ObjectCollection) (data : Option Data) (i : Int)
    (tr : Trace) : Res (Data × Option GoError) :=
  match data with
  | none => Res.panic "data cannot be nil"
  | some data =>
    let idx := toInt32 i
    let tr1 := tr ++ [Call.dpiObject_getElementExistsByIndex O.Object.dpiObject idx]
    match E.dpiObject_getElementExistsByIndex tr O.Object.dpiObject idx with
    | none => Res.ret (data, some (GoError.wrap "exists" (getError E tr1))) tr1
    | some ex =>
      if ex = 0 then Res.ret (data, some GoError.ErrNotExist) tr1
      else
        let d1 := E.reset data
        match O.Object.ObjectType.CollectionOf with
        | none => Res.panic "nil pointer dereference"
        | some elem =>
          let d2 : Data := { d1 with NativeTypeNum := elem.NativeTypeNum, ObjectType := elem }
          let tr2 := tr1 ++ [Call.dpiObject_getElementValueByIndex O.Object.dpiObject idx
                               d2.NativeTypeNum]
          match E.dpiObject_getElementValueByIndex tr1 O.Object.dpiObject idx
                  d2.NativeTypeNum d2.dpiData with
          | none => Res.ret (d2, some (GoError.wrap "get" (getError E tr2))) tr2
          | some b => Res.ret ({ d2 with dpiData := some b }, none) tr2

/-- The method `(*ObjectCollection).SetItem(i, data)`. -/
def ObjectCollection.SetItem (E : Env) (O : ObjectCollection) (i : Int) (data : Data)
    (tr : Trace) : Option GoError × Trace :=
  let tr1 := tr ++ [Call.dpiObject_setElementValueByIndex O.Object.dpiObject (toInt32 i)
                      data.NativeTypeNum]
  if E.dpiObject_setElementValueByIndex tr O.Object.dpiObject (toInt32 i) data.NativeTypeNum
      data.dpiData
  then (none, tr1)
  else (some (GoError.wrap "set" (getError E tr1)), tr1)

/-- The tail shared by `First`, `Last` and `Next` once the bridge call has
succeeded with out-values `idx` and `exists`: `if exists == 1 { return int(idx), nil }`,
else `return 0, ErrNotExist`. -/
def indexResult (r : Int × Int) : Int × Option GoError :=
  if r.2 = 1 then (r.1, none) else (0, some GoError.ErrNotExist)

/-- The method `(*ObjectCollection).First()`. -/
def ObjectCollection.First (E : Env) (O : ObjectCollection)
    (tr : Trace) : Int × Option GoError × Trace :=
  let tr1 := tr ++ [Call.dpiObject_getFirstIndex O.Object.dpiObject]
  match E.dpiObject_getFirstIndex tr O.Object.dpiObject with
  | none => (0, some (GoError.wrap "first" (getError E tr1)), tr1)
  | some r => ((indexResult r).1, (indexResult r).2, tr1)

/-- The method `(*ObjectCollection).Last()`. -/
def ObjectCollection.Last (E : Env) (O : ObjectCollection)
    (tr : Trace) : Int × Option GoError × Trace :=
  let tr1 := tr ++ [Call.dpiObject_getLastIndex O.Object.dpiObject]
  match E.dpiObject_getLastIndex tr O.Object.dpiObject with
  | none => (0, some (GoError.wrap "last" (getError E tr1)), tr1)
  | some r => ((indexResult r).1, (indexResult r).2, tr1)

/-- The method `(*ObjectCollection).Next(i)`. -/
def ObjectCollection.Next (E : Env) (O : ObjectCollection) (i : Int)
    (tr : Trace) : Int × Option GoError × Trace :=
  let tr1 := tr ++ [Call.dpiObject_getNextIndex O.Object.dpiObject (toInt32 i)]
  match E.dpiObject_getNextIndex tr O.Object.dpiObject (toInt32 i) with
  | none => (0, some (GoError.wrap "next" (getError E tr1)), tr1)
  | some r => ((indexResult r).1, (indexResult r).2, tr1)

/-- The method `(*ObjectCollection).Len()`. -/
def ObjectCollection.Len (E : Env) (O : ObjectCollection)
    (tr : Trace) : Int × Option GoError × Trace :=
  let tr1 := tr ++ [Call.dpiObject_getSize O.Object.dpiObject]
  match E.dpiObject_getSize tr O.Object.dpiObject with
  | none => (0, some (GoError.wrap "len" (getError E tr1)), tr1)
  | some size => (size, none, tr1)

/-- The method `(*ObjectCollection).Trim(n)`. -/
def ObjectCollection.Trim (E : Env) (O : ObjectCollection) (n : Int)
    (tr : Trace) : Option GoError × Trace :=
  let tr1 := tr ++ [Call.dpiObject_trim O.Object.dpiObject (toUint32 n)]
  if E.dpiObject_trim tr O.Object.dpiObject (toUint32 n)
  then (none, tr1)
  else (some (getError E tr1), tr1)

/-- The return statement `return dr.Interface(), err` of `AsSlice`:
`Interface()` panics on the zero `reflect.Value`, which is `none`. -/
def reflectInterface (O : ObjectCollection) (dr : Option (List GoVal))
    (err : Option GoError) (tr : Trace) :
    Res (ObjectCollection × Option (List GoVal) × Option GoError) :=
  match dr with
  | none => Res.panic "reflect: call of reflect.Value.Interface on zero Value"
  | some l => Res.ret (O, some l, err) tr

/-- The `for` loop of `AsSlice`, entered with the current index `i` (the loop
condition `err == nil` holds).  `dest` is the argument (`none` is a nil
interface, otherwise a slice), `dr` the `reflect.Value` being built (`none` is
the zero `reflect.Value`).  The result holds the collection (its scratch is
written) and the two return values. -/
def ObjectCollection.AsSliceLoop (E : Env) (dest : Option (List GoVal)) :
    Nat → ObjectCollection → Option (List GoVal) → Bool → Int → Trace →
      Res (ObjectCollection × Option (List GoVal) × Option GoError)
  | 0, _, _, _, _, _ => Res.fuelOut
  | fuel + 1, O, dr, needsInit, i, tr =>
    match O.Object.ObjectType.CollectionOf with
    | none => Res.panic "nil pointer dereference"
    | some elem =>
      let O1 : ObjectCollection :=
        if elem.NativeTypeNum = DPI_NATIVE_TYPE_OBJECT
        then { Object := { O.Object with scratch := { O.Object.scratch with ObjectType := elem } } }
        else O
      match ObjectCollection.GetItem E O1 (some O1.Object.scratch) i tr with
      | Res.panic msg => Res.panic msg
      | Res.fuelOut => Res.fuelOut
      | Res.ret (scratch, some err) tr1 =>
        Res.ret ({ Object := { O1.Object with scratch := scratch } }, dest, some err) tr1
      | Res.ret (scratch, none) tr1 =>
        let O2 : ObjectCollection := { Object := { O1.Object with scratch := scratch } }
        let vr := E.Get scratch
        let continue_ (dr : List GoVal) (tr2 : Trace) :
            Res (ObjectCollection × Option (List GoVal) × Option GoError) :=
          match ObjectCollection.Next E O2 i tr2 with
          | (j, none, tr3) =>
            ObjectCollection.AsSliceLoop E dest fuel O2 (some (dr ++ [vr])) false j tr3
          | (_, some _, tr3) => Res.ret (O2, some (dr ++ [vr]), none) tr3
        if needsInit then
          match ObjectCollection.Len E O2 tr1 with
          | (_, some lengthErr, tr2) => reflectInterface O2 dr (some lengthErr) tr2
          | (length, none, tr2) =>
            if vr = GoVal.null then Res.panic "reflect: call of reflect.Value.Type on zero Value"
            else if length < 0 then Res.panic "reflect.MakeSlice: negative len"
            else continue_ [] tr2
        else
          match dr with
          | none => Res.panic "reflect: call of reflect.Append on zero Value"
          | some l =>
            if vr = GoVal.null then Res.panic "reflect: call of reflect.Append with zero Value"
            else continue_ l tr1

/-- The method `(*ObjectCollection).AsSlice(dest)`.  A non-nil `dest` is taken
to be a slice whose element type accepts every decoded element. -/
def ObjectCollection.AsSlice (E : Env) (fuel : Nat) (O : ObjectCollection)
    (dest : Option (List GoVal)) (tr : Trace) :
    Res (ObjectCollection × Option (List GoVal) × Option GoError) :=
  let needsInit := dest.isNone
  let dr : Option (List GoVal) := dest
  match ObjectCollection.First E O tr with
  | (i, none, tr1) => ObjectCollection.AsSliceLoop E dest fuel O dr needsInit i tr1
  | (_, some _, tr1) => reflectInterface O dr none tr1

/-! ## ObjectType (`obj.go` lines 352-593) -/

/-- The method `ObjectType.FullName()`. -/
def ObjectType.FullName (t : ObjectType) : String :=
  if t.Schema = "" then t.Name else t.Schema ++ "." ++ t.Name

/-- The result type of `init` and of the functions that end in a call of it: the
`ObjectType` behind the receiver pointer as left by the call, and the error. -/
abbrev InitRes := Res (ObjectType × Option GoError)

/-- The method `(*ObjectType).fromDataTypeInfo(typ)`, given the `init` it ends in. -/
def ObjectType.fromDataTypeInfoWith (initF : ObjectType → Trace → InitRes)
    (t : ObjectType) (typ : DataTypeInfo) (tr : Trace) : InitRes :=
  initF { t with dpiObjectType := typ.objectType,
                 OracleTypeNum := typ.oracleTypeNum,
                 NativeTypeNum := typ.defaultNativeTypeNum,
                 DBSize := typ.dbSizeInBytes,
                 ClientSizeInBytes := typ.clientSizeInBytes,
                 CharSize := typ.sizeInChars,
                 Precision := typ.precision,
                 Scale := typ.scale,
                 FsPrecision := typ.fsPrecision } tr

/-- The function `objectTypeFromDataTypeInfo(conn, typ)`, given the `init` it ends in. -/
def objectTypeFromDataTypeInfoWith (initF : ObjectType → Trace → InitRes)
    (c : Option Nat) (typ : DataTypeInfo) (tr : Trace) : InitRes :=
  if c = none then Res.panic "conn is nil"
  else if typ.oracleTypeNum = 0 then Res.panic "typ is nil"
  else ObjectType.fromDataTypeInfoWith initF { ObjectType.zero with conn := c } typ tr

/-- The slice `attrs` after `dpiObjectType_getAttributes` has filled it: it has
`n` entries, those the bridge did not write staying nil. -/
def attrSlice (n : Nat) (written : List Handle) : List Handle :=
  (List.range n).map (fun i => written.getD i none)

/-- The loop `for i, attr := range attrs` of `init`, over the descriptors still
to visit, given the `init` used for the attribute types. -/
def ObjectType.initAttrLoop (E : Env) (initF : ObjectType → Trace → InitRes) :
    List Handle → ObjectType → Trace → InitRes
  | [], t, tr => Res.ret (t, none) tr
  | attr :: rest, t, tr =>
    let tr1 := tr ++ [Call.dpiObjectAttr_getInfo attr]
    match E.dpiObjectAttr_getInfo tr attr with
    | none => Res.ret (t, some (GoError.wrap "attr_getInfo" (getError E tr1))) tr1
    | some attrInfo =>
      match objectTypeFromDataTypeInfoWith initF t.conn attrInfo.typeInfo tr1 with
      | Res.panic msg => Res.panic msg
      | Res.fuelOut => Res.fuelOut
      | Res.ret (_, some err) tr2 => Res.ret (t, some err) tr2
      | Res.ret (sub, none) tr2 =>
        let objAttr : ObjectAttribute :=
          { dpiObjectAttr := attr, Name := attrInfo.name, ObjectType := sub }
        ObjectType.initAttrLoop E initF rest
          { t with Attributes := some (mapInsert objAttr.Name objAttr (t.Attributes.getD [])) }
          tr2

/-- The method `(*ObjectType).init()`.  One unit of fuel is used per nesting
level of types (element type, attribute types). -/
def ObjectType.init (E : Env) : Nat → ObjectType → Trace → InitRes
  | 0, _, _ => Res.fuelOut
  | fuel + 1, t, tr =>
    if t.conn = none then Res.panic "conn is nil"
    else if t.Name ≠ "" ∧ t.Attributes.isSome then Res.ret (t, none) tr
    else if t.dpiObjectType = none then Res.ret (t, none) tr
    else
      let tr1 := tr ++ [Call.dpiObjectType_getInfo t.dpiObjectType]
      match E.dpiObjectType_getInfo tr t.dpiObjectType with
      | none => Res.ret (t, some (GoError.wrap "getInfo" (getError E tr1))) tr1
      | some info =>
        let t1 : ObjectType :=
          { t with Schema := info.schema, Name := info.name, CollectionOf := none }
        let afterElem : InitRes :=
          if info.isCollection = 1 then
            match ObjectType.fromDataTypeInfoWith (ObjectType.init E fuel)
                    { ObjectType.zero with conn := t.conn } info.elementTypeInfo tr1 with
            | Res.panic msg => Res.panic msg
            | Res.fuelOut => Res.fuelOut
            | Res.ret (elem, some err) tr2 =>
              Res.ret ({ t1 with CollectionOf := some elem }, some err) tr2
            | Res.ret (elem, none) tr2 =>
              let elem1 : ObjectType :=
                if elem.Name = "" then { elem with Schema := t1.Schema, Name := t1.Name }
                else elem
              Res.ret ({ t1 with CollectionOf := some elem1 }, none) tr2
          else Res.ret (t1, none) tr1
        match afterElem with
        | Res.panic msg => Res.panic msg
        | Res.fuelOut => Res.fuelOut
        | Res.ret (t2, some err) tr2 => Res.ret (t2, some err) tr2
        | Res.ret (t2, none) tr2 =>
          let t3 : ObjectType := { t2 with Attributes := some [] }
          if info.numAttributes = 0 then Res.ret (t3, none) tr2
          else
            let tr3 := tr2 ++ [Call.dpiObjectType_getAttributes t.dpiObjectType
                                 info.numAttributes]
            match E.dpiObjectType_getAttributes tr2 t.dpiObjectType info.numAttributes with
            | none => Res.ret (t3, some (GoError.wrap "getAttributes" (getError E tr3))) tr3
            | some written =>
              ObjectType.initAttrLoop E (ObjectType.init E fuel)
                (attrSlice info.numAttributes written) t3 tr3

/-- The method `(*ObjectType).fromDataTypeInfo(typ)`. -/
def ObjectType.fromDataTypeInfo (E : Env) (fuel : Nat) (t : ObjectType) (typ : DataTypeInfo)
    (tr : Trace) : InitRes :=
  ObjectType.fromDataTypeInfoWith (ObjectType.init E fuel) t typ tr

/-- The function `objectTypeFromDataTypeInfo(conn, typ)`. -/
def objectTypeFromDataTypeInfo (E : Env) (fuel : Nat) (c : Option Nat) (typ : DataTypeInfo)
    (tr : Trace) : InitRes :=
  objectTypeFromDataTypeInfoWith (ObjectType.init E fuel) c typ tr

/-- The method `(*conn).GetObjectType(name)`; returns the connection as left by
the call (its cache), the `ObjectType` and the error. -/
def conn.GetObjectType (E : Env) (fuel : Nat) (c : conn) (name : String) (tr : Trace) :
    Res (conn × ObjectType × Option GoError) :=
  let name := normalizeName E name
  match mapLookup name c.objTypes with
  | some o => Res.ret (c, o, none) tr
  | none =>
    let tr1 := tr ++ [Call.dpiConn_getObjectType c.dpiConn name]
    match E.dpiConn_getObjectType tr c.dpiConn name with
    | none =>
      Res.ret (c, ObjectType.zero, some (GoError.wrap "getObjectType" (getError E tr1))) tr1
    | some objType =>
      match ObjectType.init E fuel
              { ObjectType.zero with conn := some c.id, dpiObjectType := objType } tr1 with
      | Res.panic msg => Res.panic msg
      | Res.fuelOut => Res.fuelOut
      | Res.ret (t, some err) tr2 => Res.ret (c, t, some err) tr2
      | Res.ret (t, none) tr2 =>
        let m := mapInsert name t (c.objTypes.getD [])
        Res.ret ({ c with objTypes := some (mapInsert t.FullName t m) }, t, none) tr2

/-- The method `ObjectType.NewObject()`; the first component is the returned
`*Object`. -/
def ObjectType.NewObject (E : Env) (t : ObjectType) (tr : Trace) :
    Res (Option Object × Option GoError) :=
  let tr1 := tr ++ [Call.dpiObjectType_createObject t.dpiObjectType]
  match E.dpiObjectType_createObject tr t.dpiObjectType with
  | none => Res.ret (none, some (getError E tr1)) tr1
  | some obj =>
    let O : Object := { ObjectType := t, scratch := Data.zero, dpiObject := obj }
    match Object.ResetAttributes E O tr1 with
    | Res.panic msg => Res.panic msg
    | Res.fuelOut => Res.fuelOut
    | Res.ret err tr2 => Res.ret (some O, err) tr2

/-- The method `ObjectType.NewCollection()`; the first component is the returned
`*ObjectCollection`. -/
def ObjectType.NewCollection (E : Env) (t : ObjectType) (tr : Trace) :
    Res (Option ObjectCollection × Option GoError) :=
  match t.CollectionOf with
  | none => Res.ret (none, some GoError.ErrNotCollection) tr
  | some _ =>
    match ObjectType.NewObject E t tr with
    | Res.panic msg => Res.panic msg
    | Res.fuelOut => Res.fuelOut
    | Res.ret (_, some err) tr1 => Res.ret (none, some err) tr1
    | Res.ret (O, none) tr1 => Res.ret (O.map (fun o => { Object := o }), none) tr1

/-- The method `ObjectAttribute.Close()` (value receiver: the attribute itself
is not changed). -/
def ObjectAttribute.Close (E : Env) (A : ObjectAttribute) (tr : Trace) :
    Option GoError × Trace :=
  if A.dpiObjectAttr = none then (none, tr)
  else
    let tr1 := tr ++ [Call.dpiObjectAttr_release A.dpiObjectAttr]
    if E.dpiObjectAttr_release tr A.dpiObjectAttr then (none, tr1)
    else (some (getError E tr1), tr1)

/-- The loop `for _, attr := range t.Attributes` of `close`, over the entries
still to visit. -/
def ObjectType.closeAttrs (E : Env) :
    List (String × ObjectAttribute) → Trace → Option GoError × Trace
  | [], tr => (none, tr)
  | (_, attr) :: rest, tr =>
    match ObjectAttribute.Close E attr tr with
    | (some err, tr1) => (some err, tr1)
    | (none, tr1) => ObjectType.closeAttrs E rest tr1

/-- The method `(*ObjectType).close()`; the receiver may be nil, and the
`ObjectType` behind it is returned as left by the call. -/
def ObjectType.close (E : Env) (t : Option ObjectType) (tr : Trace) :
    Option ObjectType × Option GoError × Trace :=
  match t with
  | none => (none, none, tr)
  | some t =>
    match ObjectType.closeAttrs E (t.Attributes.getD []) tr with
    | (some err, tr1) => (some t, some err, tr1)
    | (none, tr1) =>
      let d := t.dpiObjectType
      let t1 : ObjectType := { t with Attributes := none, dpiObjectType := none }
      if d = none then (some t1, none, tr1)
      else
        let tr2 := tr1 ++ [Call.dpiObjectType_release d]
        if E.dpiObjectType_release tr1 d then (some t1, none, tr2)
        else (some t1, some (GoError.wrap "error on close object type" (getError E tr2)), tr2)

/-- The function `wrapObject(c, objectType, object)`; `c` is the `*conn` pointer. -/
def wrapObject (E : Env) (fuel : Nat) (c : Option Nat) (objectType : Handle)
    (object : Handle) (tr : Trace) : Res (Option Object × Option GoError) :=
  if objectType = none then Res.ret (none, some (GoError.new "objectType is nil")) tr
  else
    let tr1 := tr ++ [Call.dpiObject_addRef object]
    if E.dpiObject_addRef tr object then
      match ObjectType.init E fuel
              { ObjectType.zero with dpiObjectType := objectType, conn := c } tr1 with
      | Res.panic msg => Res.panic msg
      | Res.fuelOut => Res.fuelOut
      | Res.ret (t, err) tr2 =>
        Res.ret (some { ObjectType := t, scratch := Data.zero, dpiObject := object }, err) tr2
    else Res.ret (none, some (getError E tr1)) tr1

/-! ## Observations on results -/

/-- The history of bridge calls at a normal return. -/
def Res.trace? {α : Type} : Res α → Option Trace
  | Res.ret _ tr => some tr
  | _ => none

/-- The value of a normal return. -/
def Res.val? {α : Type} : Res α → Option α
  | Res.ret v _ => some v
  | _ => none

/-- The panic message, when the call panics. -/
def Res.panicMsg? {α : Type} : Res α → Option String
  | Res.panic msg => some msg
  | _ => none

/-! ## Sample environments for concrete evaluations -/

/-- ASCII upper-casing, the behaviour of `strings.ToUpper` on ASCII names. -/
def asciiUpper (s : String) : String := String.mk (s.data.map Char.toUpper)

/-- A sample `Data.reset`: clears the type fields and marks the buffer null,
allocating it when it is missing. -/
def sampleReset (d : Data) : Data :=
  { ObjectType := ObjectType.zero, NativeTypeNum := 0,
    dpiData := match d.dpiData with
      | none => some { isNull := 1, asBytesLength := 0, payload := 0 }
      | some b => some { b with isNull := 1 } }

/-- A sample `Data.Get`: the payload as an integer, nil for a null value. -/
def sampleGet (d : Data) : GoVal :=
  match d.dpiData with
  | none => GoVal.null
  | some b => if b.isNull = 0 then GoVal.int b.payload else GoVal.null

/-- A type-info record of a structured type without attributes. -/
def plainInfo (schema name : String) : ObjectTypeInfo :=
  { schema := schema, name := name, isCollection := 0,
    elementTypeInfo := { oracleTypeNum := 0, defaultNativeTypeNum := 0, dbSizeInBytes := 0,
                         clientSizeInBytes := 0, sizeInChars := 0, precision := 0, scale := 0,
                         fsPrecision := 0, objectType := none },
    numAttributes := 0 }

/-- A bridge on which every call succeeds: every type is `SCOTT.ADDRESS` without
attributes, every collection is empty, new handles are numbered by the length
of the history. -/
def okEnv : Env :=
  { ToUpper := asciiUpper
    reset := sampleReset
    Get := sampleGet
    oraErr := fun _ => (942, "ORA-00942")
    dpiConn_getObjectType := fun tr _ _ => some (some tr.length)
    dpiObjectType_getInfo := fun _ _ => some (plainInfo "SCOTT" "ADDRESS")
    dpiObjectType_getAttributes := fun _ _ _ => some []
    dpiObjectAttr_getInfo := fun _ _ => none
    dpiObjectType_createObject := fun tr _ => some (some tr.length)
    dpiObjectType_release := fun _ _ => true
    dpiObjectAttr_release := fun _ _ => true
    dpiObject_release := fun _ _ => true
    dpiObject_addRef := fun _ _ => true
    dpiObject_getAttributeValue := fun _ _ _ _ d => d
    dpiObject_setAttributeValue := fun _ _ _ _ _ => true
    dpiObject_appendElement := fun _ _ _ _ => true
    dpiObject_deleteElementByIndex := fun _ _ _ => true
    dpiObject_getElementExistsByIndex := fun _ _ _ => some 0
    dpiObject_getElementValueByIndex := fun _ _ _ _ d => d
    dpiObject_setElementValueByIndex := fun _ _ _ _ _ => true
    dpiObject_getFirstIndex := fun _ _ => some (0, 0)
    dpiObject_getLastIndex := fun _ _ => some (0, 0)
    dpiObject_getNextIndex := fun _ _ _ => some (0, 0)
    dpiObject_getSize := fun _ _ => some 0
    dpiObject_trim := fun _ _ _ => true }

/-- A connection with an empty cache. -/
def freshConn : conn := { id := 1, dpiConn := some 100, objTypes := none }

/-- A bridge as `okEnv` whose types are all named `Real`, in mixed case and
without a schema (a type created under a quoted name). -/
def mixedCaseEnv : Env :=
  { okEnv with dpiObjectType_getInfo := fun _ _ => some (plainInfo "" "Real") }

/-- The `ObjectType` that `init` builds on `mixedCaseEnv` for the native type `h`. -/
def realType (h : Nat) : ObjectType :=
  { ObjectType.zero with conn := some 1, dpiObjectType := some h, Name := "Real",
                         Attributes := some [] }

/-- The history after `GetObjectType("syn")` on `freshConn` and `mixedCaseEnv`. -/
def synTrace : Trace :=
  [Call.dpiConn_getObjectType (some 100) "SYN", Call.dpiObjectType_getInfo (some 0)]

/-- The connection after `GetObjectType("syn")` on `freshConn` and `mixedCaseEnv`. -/
def synConn : conn :=
  { freshConn with objTypes := some [("SYN", realType 0), ("Real", realType 0)] }

/-- The `ObjectType` that `init` builds on `okEnv` for the native type `h`. -/
def addressType (h : Nat) : ObjectType :=
  { ObjectType.zero with conn := some 1, dpiObjectType := some h, Schema := "SCOTT",
                         Name := "ADDRESS", Attributes := some [] }

/-- The history after `GetObjectType("address")` on `freshConn` and `okEnv`. -/
def addressTrace : Trace :=
  [Call.dpiConn_getObjectType (some 100) "ADDRESS", Call.dpiObjectType_getInfo (some 0)]

/-- The connection after `GetObjectType("address")` on `freshConn` and `okEnv`. -/
def addressConn : conn :=
  { freshConn with
    objTypes := some [("ADDRESS", addressType 0), ("SCOTT.ADDRESS", addressType 0)] }

/-- A scalar element type (a number fetched as an integer). -/
def intElemType : ObjectType :=
  { ObjectType.zero with conn := some 1, OracleTypeNum := 2010, NativeTypeNum := 3000 }

/-- A collection type `SCOTT.NUM_LIST` of `intElemType`, without attributes. -/
def numListType : ObjectType :=
  { ObjectType.zero with conn := some 1, dpiObjectType := some 5, Schema := "SCOTT",
                         Name := "NUM_LIST", CollectionOf := some intElemType,
                         Attributes := some [] }

/-- The object that `NewObject` builds for `numListType` on `okEnv` from an empty history. -/
def numListObject : Object :=
  { ObjectType := numListType, scratch := Data.zero, dpiObject := some 0 }

/-- A bridge as `okEnv` on which every collection holds the elements `elems`
(index and payload, in ascending index order), and on which the existence check
fails for the index `bad`. -/
def collEnv (elems : List (Int × Int)) (bad : Option Int) : Env :=
  { okEnv with
    dpiObject_getElementExistsByIndex := fun _ _ i =>
      if bad = some i then none
      else some (if elems.any (fun e => e.1 == i) then 1 else 0)
    dpiObject_getElementValueByIndex := fun _ _ i _ _ =>
      (elems.find? (fun e => e.1 == i)).map
        (fun e => { isNull := 0, asBytesLength := 0, payload := e.2 })
    dpiObject_getFirstIndex := fun _ _ =>
      match elems.head? with
      | none => some (0, 0)
      | some e => some (e.1, 1)
    dpiObject_getLastIndex := fun _ _ =>
      match elems.getLast? with
      | none => some (0, 0)
      | some e => some (e.1, 1)
    dpiObject_getNextIndex := fun _ _ i =>
      match elems.find? (fun e => decide (i < e.1)) with
      | none => some (0, 0)
      | some e => some (e.1, 1)
    dpiObject_getSize := fun _ _ => some elems.length }

/-- A bound collection object of type `numListType`. -/
def numList : ObjectCollection :=
  { Object := { ObjectType := numListType, scratch := Data.zero, dpiObject := some 9 } }

/-- A string attribute type (`VARCHAR2` fetched as bytes). -/
def stringType : ObjectType :=
  { ObjectType.zero with conn := some 1, OracleTypeNum := 2001, NativeTypeNum := 3004 }

/-- The attribute map of `ADDRESS{STREET: string, ZIP: string}`. -/
def addressAttributes : List (String × ObjectAttribute) :=
  [("STREET", { Name := "STREET", dpiObjectAttr := some 11, ObjectType := stringType }),
   ("ZIP", { Name := "ZIP", dpiObjectAttr := some 12, ObjectType := stringType })]

/-- A bound object of the structured type `SCOTT.ADDRESS{STREET, ZIP}`. -/
def addressObject : Object :=
  { ObjectType := { addressType 4 with Attributes := some addressAttributes },
    scratch := Data.zero, dpiObject := some 9 }

/-- The object `addressObject` after a successful `Close`. -/
def closedAddressObject : Object := { addressObject with dpiObject := none }

/-- A bridge as `okEnv` on which releasing an object fails. -/
def noReleaseEnv : Env := { okEnv with dpiObject_release := fun _ _ => false }

/-- The bridge calls that release the attribute descriptors of a map, in
iteration order: one per entry whose descriptor is not nil. -/
def attrReleaseCalls (l : List (String × ObjectAttribute)) : List Call :=
  (l.filter (fun p => p.2.dpiObjectAttr.isSome)).map
    (fun p => Call.dpiObjectAttr_release p.2.dpiObjectAttr)

/-- The bridge call that releases a type handle: none for the nil handle. -/
def typeReleaseCalls (d : Handle) : List Call :=
  if d = none then [] else [Call.dpiObjectType_release d]

/-- The type `SCOTT.ADDRESS{STREET, ZIP}` with its native handle 4. -/
def addressStruct : ObjectType := { addressType 4 with Attributes := some addressAttributes }

/-- The type `addressStruct` after a successful `close`. -/
def closedAddressStruct : ObjectType :=
  { addressType 4 with Attributes := none, dpiObjectType := none }

/-- The bridge calls of `AsSlice` on a collection holding the indices 0 and 1
when the existence check of index 1 fails: element 0 is read, element 1 is not. -/
def asSliceFailTrace : Trace :=
  [Call.dpiObject_getFirstIndex (some 9),
   Call.dpiObject_getElementExistsByIndex (some 9) 0,
   Call.dpiObject_getElementValueByIndex (some 9) 0 3000,
   Call.dpiObject_getNextIndex (some 9) 0,
   Call.dpiObject_getElementExistsByIndex (some 9) 1]

/-- The two return values of `AsSlice`, when it returns. -/
def asSliceReturn (r : Res (ObjectCollection × Option (List GoVal) × Option GoError)) :
    Option (Option (List GoVal) × Option GoError) :=
  r.val?.map (fun v => (v.2.1, v.2.2))

/-- A bridge on which every call reports `DPI_FAILURE`. -/
def failEnv : Env :=
  { ToUpper := asciiUpper
    reset := sampleReset
    Get := sampleGet
    oraErr := fun _ => (942, "ORA-00942")
    dpiConn_getObjectType := fun _ _ _ => none
    dpiObjectType_getInfo := fun _ _ => none
    dpiObjectType_getAttributes := fun _ _ _ => none
    dpiObjectAttr_getInfo := fun _ _ => none
    dpiObjectType_createObject := fun _ _ => none
    dpiObjectType_release := fun _ _ => false
    dpiObjectAttr_release := fun _ _ => false
    dpiObject_release := fun _ _ => false
    dpiObject_addRef := fun _ _ => false
    dpiObject_getAttributeValue := fun _ _ _ _ _ => none
    dpiObject_setAttributeValue := fun _ _ _ _ _ => false
    dpiObject_appendElement := fun _ _ _ _ => false
    dpiObject_deleteElementByIndex := fun _ _ _ => false
    dpiObject_getElementExistsByIndex := fun _ _ _ => none
    dpiObject_getElementValueByIndex := fun _ _ _ _ _ => none
    dpiObject_setElementValueByIndex := fun _ _ _ _ _ => false
    dpiObject_getFirstIndex := fun _ _ => none
    dpiObject_getLastIndex := fun _ _ => none
    dpiObject_getNextIndex := fun _ _ _ => none
    dpiObject_getSize := fun _ _ => none
    dpiObject_trim := fun _ _ _ => false }

/-- The structured error that `getError()` gives on the sample bridges. -/
def sampleOraErr : GoError := GoError.ora 942 "ORA-00942"

/-- A bridge as `okEnv` on which setting an attribute value fails. -/
def setFailEnv : Env := { okEnv with dpiObject_setAttributeValue := fun _ _ _ _ _ => false }

/-- A type with `CollectionOf` set that also has one attribute `TAG`. -/
def taggedListType : ObjectType :=
  { numListType with
    Attributes := some [("TAG", { Name := "TAG", dpiObjectAttr := some 21,
                                  ObjectType := stringType })] }

/-- The object that `NewObject` creates for `taggedListType` from an empty history. -/
def taggedListObject : Object :=
  { ObjectType := taggedListType, scratch := Data.zero, dpiObject := some 0 }

/-- The bridge calls of `NewObject` for `taggedListType` on `setFailEnv`: the
native object 0 is created, then the reset of `TAG` fails. -/
def taggedListTrace : Trace :=
  [Call.dpiObjectType_createObject (some 5),
   Call.dpiObject_setAttributeValue (some 0) (some 21) 3004]

/-- The type info of a scalar type: no native object type behind it. -/
def scalarInfo (oracleTypeNum nativeTypeNum : Nat) : DataTypeInfo :=
  { oracleTypeNum := oracleTypeNum, defaultNativeTypeNum := nativeTypeNum, dbSizeInBytes := 0,
    clientSizeInBytes := 0, sizeInChars := 0, precision := 0, scale := 0, fsPrecision := 0,
    objectType := none }

/-- A bridge as `okEnv` whose types are all reported as a collection of numbers
that also has one attribute `TAG`: `isCollection = 1` and `numAttributes = 1`. -/
def bothEnv : Env :=
  { okEnv with
    dpiObjectType_getInfo := fun _ _ =>
      some { schema := "SCOTT", name := "TAGGED_LIST", isCollection := 1,
             elementTypeInfo := scalarInfo 2010 3000, numAttributes := 1 }
    dpiObjectType_getAttributes := fun _ _ _ => some [some 21]
    dpiObjectAttr_getInfo := fun _ _ => some { name := "TAG", typeInfo := scalarInfo 2001 3004 } }

/-- An `ObjectType` as `GetObjectType` and `wrapObject` hand it to `init`: only
the connection and the native type `h` are set. -/
def unresolvedType (h : Nat) : ObjectType :=
  { ObjectType.zero with conn := some 1, dpiObjectType := some h }

/-- The map built by assigning the entries in turn, starting from the map `m`. -/
def insertAll (entries : List (String × ObjectAttribute))
    (m : List (String × ObjectAttribute)) : List (String × ObjectAttribute) :=
  entries.foldl (fun acc p => mapInsert p.1 p.2 acc) m

/-- What `init` leaves of interest in an `ObjectType`: whether `CollectionOf` is
set, the keys of `Attributes`, and the error. -/
def initShape (r : InitRes) : Option (Bool × List String × Option GoError) :=
  r.val?.map (fun v => (v.1.CollectionOf.isSome, (v.1.Attributes.getD []).map Prod.fst, v.2))

/-- The provider record of the structured type `SCOTT.ADDRESS` with two attributes. -/
def structInfo : ObjectTypeInfo :=
  { schema := "SCOTT", name := "ADDRESS", isCollection := 0,
    elementTypeInfo := scalarInfo 0 0, numAttributes := 2 }

/-- A bridge as `okEnv` whose types are all `SCOTT.ADDRESS{STREET, ZIP}`, with
the attribute descriptors 11 and 12. -/
def structEnv : Env :=
  { okEnv with
    dpiObjectType_getInfo := fun _ _ => some structInfo
    dpiObjectType_getAttributes := fun _ _ _ => some [some 11, some 12]
    dpiObjectAttr_getInfo := fun _ a =>
      some { name := if a = some 11 then "STREET" else "ZIP", typeInfo := scalarInfo 2001 3004 } }

/-- The bridge calls of `init` for the native type 4 on `structEnv`. -/
def structTrace : Trace :=
  [Call.dpiObjectType_getInfo (some 4), Call.dpiObjectType_getAttributes (some 4) 2,
   Call.dpiObjectAttr_getInfo (some 11), Call.dpiObjectAttr_getInfo (some 12)]

/-- The type info of an attribute or element whose type is the object type `h`. -/
def objectInfo (h : Nat) : DataTypeInfo :=
  { oracleTypeNum := 2023, defaultNativeTypeNum := 3009, dbSizeInBytes := 0,
    clientSizeInBytes := 0, sizeInChars := 0, precision := 0, scale := 0, fsPrecision := 0,
    objectType := some h }

/-- A provider with a self-referential type graph, as declared by
`CREATE TYPE node; CREATE TYPE node_list AS TABLE OF node;
CREATE TYPE node AS OBJECT (children node_list)`: the native type 1 is `NODE`
with the single attribute `CHILDREN` of type 2, and the native type 2 is the
collection `NODE_LIST` of type 1.  Every name resolves to `NODE`. -/
def nodeEnv : Env :=
  { okEnv with
    dpiConn_getObjectType := fun _ _ _ => some (some 1)
    dpiObjectType_getInfo := fun _ t =>
      if t = some 1 then
        some { schema := "SCOTT", name := "NODE", isCollection := 0,
               elementTypeInfo := scalarInfo 0 0, numAttributes := 1 }
      else
        some { schema := "SCOTT", name := "NODE_LIST", isCollection := 1,
               elementTypeInfo := objectInfo 1, numAttributes := 0 }
    dpiObjectType_getAttributes := fun _ _ _ => some [some 3]
    dpiObjectAttr_getInfo := fun _ _ => some { name := "CHILDREN", typeInfo := objectInfo 2 } }

/-- A bridge holding the indices 0 and 1 on which `dpiObject_getFirstIndex` fails. -/
def firstFailEnv : Env :=
  { collEnv [(0, 10), (1, 20)] none with dpiObject_getFirstIndex := fun _ _ => none }

/-- A bridge holding the indices 0 and 1 on which `dpiObject_getNextIndex` fails. -/
def nextFailEnv : Env :=
  { collEnv [(0, 10), (1, 20)] none with dpiObject_getNextIndex := fun _ _ _ => none }

/-- A bridge holding the index 0 on which `dpiObject_getSize` fails. -/
def lenFailEnv : Env :=
  { collEnv [(0, 10)] none with dpiObject_getSize := fun _ _ => none }

/-- The collection at the top of an iteration of `AsSlice`, after
`O.scratch.ObjectType = *O.CollectionOf` for an element type fetched as object. -/
def asSliceScratch (O : ObjectCollection) (elem : ObjectType) : ObjectCollection :=
  if elem.NativeTypeNum = DPI_NATIVE_TYPE_OBJECT
  then { Object := { O.Object with scratch := { O.Object.scratch with ObjectType := elem } } }
  else O

/-- The collection after `GetItem(&O.scratch, i)` has written the scratch value. -/
def withScratch (O : ObjectCollection) (scratch : Data) : ObjectCollection :=
  { Object := { O.Object with scratch := scratch } }

/-- The scratch value of `numList` after element 0 (payload 10) was read into it. -/
def scratchTen : Data :=
  { ObjectType := intElemType, NativeTypeNum := 3000,
    dpiData := some { isNull := 0, asBytesLength := 0, payload := 10 } }

/-- A provider type graph without cycles: `rank` decreases from a native type to
the object type of its collection element and to the object types of its
attributes, whatever the history of bridge calls. -/
def RankedGraph (E : Env) (rank : Nat → Nat) : Prop :=
  (∀ (tr : Trace) (h : Nat) (info : ObjectTypeInfo) (e : Nat),
    E.dpiObjectType_getInfo tr (some h) = some info → info.isCollection = 1 →
    info.elementTypeInfo.objectType = some e → rank e < rank h) ∧
  (∀ (tr tr1 : Trace) (h n : Nat) (written : List Handle) (a : Handle)
    (ai : ObjectAttrInfo) (s : Nat),
    E.dpiObjectType_getAttributes tr (some h) n = some written → a ∈ attrSlice n written →
    E.dpiObjectAttr_getInfo tr1 a = some ai → ai.typeInfo.objectType = some s →
    rank s < rank h)

/-- The fuel that `init` needs for a native type of a ranked graph: one unit for
a nil handle, two more than its rank otherwise. -/
def fuelNeeded (rank : Nat → Nat) : Handle → Nat
  | none => 1
  | some h => rank h + 2

/-- The entries that the provider's answers determine for the attribute
descriptors `hs`, visited in order from the history `tr`: for each descriptor
`a`, `dpiObjectAttr_getInfo` is asked for its name and type info, the type is
resolved by `resolve` (the function `objectTypeFromDataTypeInfo`), and the entry
is keyed by the reported name and holds that name, the descriptor `a` and the
resolved type.  The result is `none` unless every step succeeds; otherwise it
holds the entries in order and the final history. -/
def attrEntries (E : Env) (resolve : Option Nat → DataTypeInfo → Trace → InitRes)
    (c : Option Nat) : List Handle → Trace → Option (List (String × ObjectAttribute) × Trace)
  | [], tr => some ([], tr)
  | a :: rest, tr =>
    match E.dpiObjectAttr_getInfo tr a with
    | none => none
    | some ai =>
      match resolve c ai.typeInfo (tr ++ [Call.dpiObjectAttr_getInfo a]) with
      | Res.ret (sub, none) tr2 =>
        (attrEntries E resolve c rest tr2).map
          (fun r => ((ai.name, { Name := ai.name, dpiObjectAttr := a, ObjectType := sub }) :: r.1,
                     r.2))
      | _ => none

/-! ## Lemmas on maps -/

theorem find_entriesInsert {β : Type} (k k' : String) (v : β) (l : List (String × β)) :
    ((entriesInsert k' v l).find? (fun p => p.1 == k)).map Prod.snd =
      if k' = k then some v else (l.find? (fun p => p.1 == k)).map Prod.snd := by
  induction l with
  | nil =>
    by_cases h : k' = k
    · simp [entriesInsert, h]
    · simp [entriesInsert, h]
  | cons p l ih =>
    unfold entriesInsert
    by_cases hp : p.1 = k'
    · have hb : (p.1 == k') = true := by simpa using hp
      rw [if_pos hb]
      by_cases h : k' = k
      · simp [h]
      · have hkb : (p.1 == k) = false := by
          simp only [beq_eq_false_iff_ne, ne_eq]
          exact fun h2 => h (hp ▸ h2)
        simp [List.find?_cons, hkb, h]
    · have hb : ¬ (p.1 == k') = true := by simpa using hp
      rw [if_neg hb]
      by_cases hk : p.1 = k
      · have hne : ¬ k' = k := fun h2 => hp (hk.trans h2.symm)
        have hkb : (p.1 == k) = true := by simpa using hk
        simp [List.find?_cons, hkb, hne]
      · have hkb : (p.1 == k) = false := by simpa using hk
        simp only [List.find?_cons, hkb]
        exact ih

theorem mapLookup_mapInsert {β : Type} (k k' : String) (v : β) (l : List (String × β)) :
    mapLookup k (some (mapInsert k' v l)) =
      if k' = k then some v else mapLookup k (some l) := by
  simp only [mapLookup, mapInsert]
  exact find_entriesInsert k k' v l

/-! ## Lemmas on `GetObjectType` -/

theorem getObjectType_hit (E : Env) (fuel : Nat) (c : conn) (name : String) (tr : Trace)
    (o : ObjectType) (h : mapLookup (normalizeName E name) c.objTypes = some o) :
    conn.GetObjectType E fuel c name tr = Res.ret (c, o, none) tr := by
  simp [conn.GetObjectType, h]

theorem getObjectType_stores_name (E : Env) (fuel : Nat) (c c1 : conn) (name : String)
    (tr tr1 : Trace) (t : ObjectType)
    (h : conn.GetObjectType E fuel c name tr = Res.ret (c1, t, none) tr1) :
    mapLookup (normalizeName E name) c1.objTypes = some t := by
  unfold conn.GetObjectType at h
  simp only at h
  split at h
  · next o ho =>
    simp only [Res.ret.injEq, Prod.mk.injEq] at h
    obtain ⟨⟨hc, ht, _⟩, _⟩ := h
    subst hc; subst ht; exact ho
  · split at h
    · simp at h
    · split at h
      · simp at h
      · simp at h
      · simp at h
      · next t2 tr2 _ =>
        simp only [Res.ret.injEq, Prod.mk.injEq] at h
        obtain ⟨⟨hc, ht, _⟩, _⟩ := h
        subst hc; subst ht
        simp only [mapLookup_mapInsert]
        split <;> simp

theorem getObjectType_stores_fullName (E : Env) (fuel : Nat) (c c1 : conn) (name : String)
    (tr tr1 : Trace) (t : ObjectType)
    (hmiss : mapLookup (normalizeName E name) c.objTypes = none)
    (h : conn.GetObjectType E fuel c name tr = Res.ret (c1, t, none) tr1) :
    mapLookup t.FullName c1.objTypes = some t := by
  unfold conn.GetObjectType at h
  simp only [hmiss] at h
  split at h
  · simp at h
  · split at h
    · simp at h
    · simp at h
    · simp at h
    · next t2 tr2 _ =>
      simp only [Res.ret.injEq, Prod.mk.injEq] at h
      obtain ⟨⟨hc, ht, _⟩, _⟩ := h
      subst hc; subst ht
      simp [mapLookup_mapInsert]

/-! ## C1: the cache of `GetObjectType` -/

/-- C1 (amended).  Let `GetObjectType(name)` succeed for a name without a quote
character, returning `t` and leaving the connection `c1` and the history `tr1`.
Then (1) a following `GetObjectType` of the same name in any letter case (any
quote-free `name'` with the same `strings.ToUpper` image) returns `t` with a nil
error, leaves the cache as it is and makes no bridge call (the history stays
`tr1`); and (2) when the first call resolved the type through the provider
(cache miss), a following lookup by `t.FullName()` does the same provided the
normalised form of `FullName()` is `FullName()` itself or the normalised first
name: the entry is stored under `FullName()` as it is, but looked up normalised. -/
theorem getObjectType_cached (E : Env) (fuel fuel' : Nat) (c c1 : conn) (name : String)
    (tr tr1 : Trace) (t : ObjectType)
    (hq : containsQuote name = false)
    (h : conn.GetObjectType E fuel c name tr = Res.ret (c1, t, none) tr1) :
    (∀ name' : String, containsQuote name' = false → E.ToUpper name' = E.ToUpper name →
        conn.GetObjectType E fuel' c1 name' tr1 = Res.ret (c1, t, none) tr1) ∧
    (mapLookup (normalizeName E name) c.objTypes = none →
      (normalizeName E t.FullName = t.FullName ∨
        normalizeName E t.FullName = normalizeName E name) →
        conn.GetObjectType E fuel' c1 t.FullName tr1 = Res.ret (c1, t, none) tr1) := by
  have hname := getObjectType_stores_name E fuel c c1 name tr tr1 t h
  refine ⟨?_, ?_⟩
  · intro name' hq' hup
    apply getObjectType_hit
    have : normalizeName E name' = normalizeName E name := by
      simp [normalizeName, hq', hq, hup]
    rw [this]; exact hname
  · intro hmiss hnorm
    apply getObjectType_hit
    rcases hnorm with h1 | h1
    · rw [h1]; exact getObjectType_stores_fullName E fuel c c1 name tr tr1 t hmiss h
    · rw [h1]; exact hname

/-- C1, an instance: after `GetObjectType("address")` on an empty cache, the
lookups of `ADDRESS` and of the full name `SCOTT.ADDRESS` are answered from the
cache. -/
theorem getObjectType_cached_witness :
    containsQuote "address" = false ∧
    conn.GetObjectType okEnv 1 freshConn "address" [] =
      Res.ret (addressConn, addressType 0, none) addressTrace ∧
    conn.GetObjectType okEnv 0 addressConn "ADDRESS" addressTrace =
      Res.ret (addressConn, addressType 0, none) addressTrace ∧
    conn.GetObjectType okEnv 0 addressConn (addressType 0).FullName addressTrace =
      Res.ret (addressConn, addressType 0, none) addressTrace :=
  ⟨by decide, rfl,
   (getObjectType_cached okEnv 1 0 freshConn addressConn "address" [] addressTrace
      (addressType 0) (by decide) rfl).1 "ADDRESS" (by decide) (by decide),
   (getObjectType_cached okEnv 1 0 freshConn addressConn "address" [] addressTrace
      (addressType 0) (by decide) rfl).2 rfl (Or.inl (by decide))⟩

/-- C1 as stated fails for the lookup by `FullName()`: on a bridge that reports
the type name `Real` for the lookup of `syn`, the first call succeeds and caches
the type under `SYN` and `Real`; the lookup by `FullName() = "Real"` is
normalised to `REAL`, misses the cache and calls the provider again. -/
theorem getObjectType_fullName_refetches :
    containsQuote "syn" = false ∧
    conn.GetObjectType mixedCaseEnv 1 freshConn "syn" [] =
      Res.ret (synConn, realType 0, none) synTrace ∧
    (conn.GetObjectType mixedCaseEnv 1 synConn (realType 0).FullName synTrace).trace? =
      some (synTrace ++ [Call.dpiConn_getObjectType (some 100) "REAL",
                         Call.dpiObjectType_getInfo (some 2)]) ∧
    conn.GetObjectType mixedCaseEnv 1 synConn (realType 0).FullName synTrace ≠
      Res.ret (synConn, realType 0, none) synTrace := by
  refine ⟨by decide, rfl, rfl, ?_⟩
  intro h
  have h2 := congrArg Res.trace? h
  revert h2
  decide

/-! ## C2: `NewCollection` -/

theorem resetAttributesLoop_error (E : Env) (h : Handle) (l : List (String × ObjectAttribute)) :
    ∀ (d : Data) (tr tr1 : Trace) (err : GoError),
      Object.ResetAttributesLoop E h l d tr = Res.ret (some err) tr1 →
        err = getError E tr1 := by
  induction l with
  | nil => intro d tr tr1 err hr; simp [Object.ResetAttributesLoop] at hr
  | cons p l ih =>
    intro d tr tr1 err hr
    obtain ⟨k, attr⟩ := p
    unfold Object.ResetAttributesLoop at hr
    simp only at hr
    split at hr
    · simp at hr
    · split at hr
      · exact ih _ _ _ _ hr
      · simp only [Res.ret.injEq, Option.some.injEq] at hr
        obtain ⟨h1, h2⟩ := hr
        rw [← h1, ← h2]

theorem newObject_error (E : Env) (t : ObjectType) (tr tr1 : Trace) (O : Option Object)
    (err : GoError) (h : ObjectType.NewObject E t tr = Res.ret (O, some err) tr1) :
    err = getError E tr1 := by
  unfold ObjectType.NewObject at h
  simp only at h
  split at h
  · simp only [Res.ret.injEq, Prod.mk.injEq, Option.some.injEq] at h
    obtain ⟨⟨_, h1⟩, h2⟩ := h
    rw [← h1, ← h2]
  · split at h
    · simp at h
    · simp at h
    · next e tr2 hreset =>
      simp only [Res.ret.injEq, Prod.mk.injEq] at h
      obtain ⟨⟨_, h1⟩, h2⟩ := h
      subst h1; subst h2
      exact resetAttributesLoop_error E _ _ _ _ _ _ hreset

/-- C2.  `NewCollection` returns `(nil, ErrNotCollection)` exactly when
`CollectionOf` is nil, and then without any bridge call (the history is
unchanged, so no native object is created); when `CollectionOf` is set it is
`NewObject` followed by a wrap: if `NewObject` returns `(O, nil)` the result is
the `ObjectCollection` holding exactly `O`, with the history of `NewObject`, and
if `NewObject` returns an error the result is `(nil, err)` with that error. -/
theorem newCollection_spec (E : Env) (t : ObjectType) (tr : Trace) :
    ((∃ tr1, ObjectType.NewCollection E t tr =
        Res.ret (none, some GoError.ErrNotCollection) tr1) ↔ t.CollectionOf = none) ∧
    (t.CollectionOf = none →
      ObjectType.NewCollection E t tr = Res.ret (none, some GoError.ErrNotCollection) tr) ∧
    (t.CollectionOf ≠ none → ∀ (O : Object) (tr1 : Trace),
      ObjectType.NewObject E t tr = Res.ret (some O, none) tr1 →
        ObjectType.NewCollection E t tr = Res.ret (some { Object := O }, none) tr1) ∧
    (t.CollectionOf ≠ none → ∀ (O : Option Object) (err : GoError) (tr1 : Trace),
      ObjectType.NewObject E t tr = Res.ret (O, some err) tr1 →
        ObjectType.NewCollection E t tr = Res.ret (none, some err) tr1) := by
  have hnil : t.CollectionOf = none →
      ObjectType.NewCollection E t tr = Res.ret (none, some GoError.ErrNotCollection) tr := by
    intro h; simp [ObjectType.NewCollection, h]
  refine ⟨⟨?_, fun h => ⟨tr, hnil h⟩⟩, hnil, ?_, ?_⟩
  · rintro ⟨tr1, h⟩
    by_contra hc
    obtain ⟨elem, he⟩ := Option.ne_none_iff_exists'.mp hc
    unfold ObjectType.NewCollection at h
    simp only [he] at h
    split at h
    · simp at h
    · simp at h
    · next O err tr2 hnew =>
      simp only [Res.ret.injEq, Prod.mk.injEq, Option.some.injEq, true_and] at h
      have := newObject_error E t tr tr2 O err hnew
      rw [h.1] at this
      simp [getError] at this
    · simp at h
  · intro hc O tr1 hnew
    obtain ⟨elem, he⟩ := Option.ne_none_iff_exists'.mp hc
    simp [ObjectType.NewCollection, he, hnew]
  · intro hc O err tr1 hnew
    obtain ⟨elem, he⟩ := Option.ne_none_iff_exists'.mp hc
    simp [ObjectType.NewCollection, he, hnew]

/-- C2, instances: a type without `CollectionOf` gives `ErrNotCollection` and an
unchanged history; the collection type `numListType` gives the wrapped object
that `NewObject` created. -/
theorem newCollection_spec_witness :
    ObjectType.NewCollection okEnv (addressType 0) [] =
      Res.ret (none, some GoError.ErrNotCollection) [] ∧
    ObjectType.NewObject okEnv numListType [] =
      Res.ret (some numListObject, none) [Call.dpiObjectType_createObject (some 5)] ∧
    ObjectType.NewCollection okEnv numListType [] =
      Res.ret (some { Object := numListObject }, none)
        [Call.dpiObjectType_createObject (some 5)] :=
  ⟨(newCollection_spec okEnv (addressType 0) []).2.1 rfl, rfl,
   (newCollection_spec okEnv numListType []).2.2.1 (by simp [numListType]) numListObject
      [Call.dpiObjectType_createObject (some 5)] rfl⟩

/-! ## C3: `ErrNotExist` -/

/-- C3.  If the existence check of `GetItem(data, i)` succeeds and reports the
index absent (`exists == 0`), `GetItem` returns `ErrNotExist`, leaves `*data` as
it was and makes no other bridge call than the existence check (no element is
read).  `First`, `Last` and `Next(i)` return `(idx, nil)` with the index the
bridge reported when it reports `exists == 1`, and `(0, ErrNotExist)` when the
bridge call succeeds with any other `exists`, in particular `0`. -/
theorem collection_notExist (E : Env) (O : ObjectCollection) (tr : Trace) :
    (∀ (data : Data) (i : Int),
      E.dpiObject_getElementExistsByIndex tr O.Object.dpiObject (toInt32 i) = some 0 →
      ObjectCollection.GetItem E O (some data) i tr =
        Res.ret (data, some GoError.ErrNotExist)
          (tr ++ [Call.dpiObject_getElementExistsByIndex O.Object.dpiObject (toInt32 i)])) ∧
    (∀ idx : Int, E.dpiObject_getFirstIndex tr O.Object.dpiObject = some (idx, 1) →
      ObjectCollection.First E O tr =
        (idx, none, tr ++ [Call.dpiObject_getFirstIndex O.Object.dpiObject])) ∧
    (∀ idx ex : Int, ex ≠ 1 →
      E.dpiObject_getFirstIndex tr O.Object.dpiObject = some (idx, ex) →
      ObjectCollection.First E O tr =
        (0, some GoError.ErrNotExist, tr ++ [Call.dpiObject_getFirstIndex O.Object.dpiObject])) ∧
    (∀ idx : Int, E.dpiObject_getLastIndex tr O.Object.dpiObject = some (idx, 1) →
      ObjectCollection.Last E O tr =
        (idx, none, tr ++ [Call.dpiObject_getLastIndex O.Object.dpiObject])) ∧
    (∀ idx ex : Int, ex ≠ 1 →
      E.dpiObject_getLastIndex tr O.Object.dpiObject = some (idx, ex) →
      ObjectCollection.Last E O tr =
        (0, some GoError.ErrNotExist, tr ++ [Call.dpiObject_getLastIndex O.Object.dpiObject])) ∧
    (∀ i idx : Int,
      E.dpiObject_getNextIndex tr O.Object.dpiObject (toInt32 i) = some (idx, 1) →
      ObjectCollection.Next E O i tr =
        (idx, none, tr ++ [Call.dpiObject_getNextIndex O.Object.dpiObject (toInt32 i)])) ∧
    (∀ i idx ex : Int, ex ≠ 1 →
      E.dpiObject_getNextIndex tr O.Object.dpiObject (toInt32 i) = some (idx, ex) →
      ObjectCollection.Next E O i tr =
        (0, some GoError.ErrNotExist,
          tr ++ [Call.dpiObject_getNextIndex O.Object.dpiObject (toInt32 i)])) := by
  refine ⟨?_, ?_, ?_, ?_, ?_, ?_, ?_⟩
  · intro data i h
    simp [ObjectCollection.GetItem, h]
  · intro idx h
    simp [ObjectCollection.First, h, indexResult]
  · intro idx ex hex h
    simp [ObjectCollection.First, h, indexResult, hex]
  · intro idx h
    simp [ObjectCollection.Last, h, indexResult]
  · intro idx ex hex h
    simp [ObjectCollection.Last, h, indexResult, hex]
  · intro i idx h
    simp [ObjectCollection.Next, h, indexResult]
  · intro i idx ex hex h
    simp [ObjectCollection.Next, h, indexResult, hex]

/-- C3, instances on a collection holding the indices 1 and 3: `GetItem` at the
absent index 2 gives `ErrNotExist` and leaves the data alone; `First` is 1,
`Last` is 3, `Next(1)` is 3 and `Next(3)` gives `ErrNotExist`; on the empty
collection `First` and `Last` give `ErrNotExist`. -/
theorem collection_notExist_witness :
    ObjectCollection.GetItem (collEnv [(1, 10), (3, 30)] none) numList (some Data.zero) 2 [] =
      Res.ret (Data.zero, some GoError.ErrNotExist)
        [Call.dpiObject_getElementExistsByIndex (some 9) 2] ∧
    ObjectCollection.First (collEnv [(1, 10), (3, 30)] none) numList [] =
      (1, none, [Call.dpiObject_getFirstIndex (some 9)]) ∧
    ObjectCollection.First (collEnv [] none) numList [] =
      (0, some GoError.ErrNotExist, [Call.dpiObject_getFirstIndex (some 9)]) ∧
    ObjectCollection.Last (collEnv [(1, 10), (3, 30)] none) numList [] =
      (3, none, [Call.dpiObject_getLastIndex (some 9)]) ∧
    ObjectCollection.Last (collEnv [] none) numList [] =
      (0, some GoError.ErrNotExist, [Call.dpiObject_getLastIndex (some 9)]) ∧
    ObjectCollection.Next (collEnv [(1, 10), (3, 30)] none) numList 1 [] =
      (3, none, [Call.dpiObject_getNextIndex (some 9) 1]) ∧
    ObjectCollection.Next (collEnv [(1, 10), (3, 30)] none) numList 3 [] =
      (0, some GoError.ErrNotExist, [Call.dpiObject_getNextIndex (some 9) 3]) :=
  ⟨(collection_notExist (collEnv [(1, 10), (3, 30)] none) numList []).1 Data.zero 2 rfl,
   (collection_notExist (collEnv [(1, 10), (3, 30)] none) numList []).2.1 1 rfl,
   (collection_notExist (collEnv [] none) numList []).2.2.1 0 0 (by decide) rfl,
   (collection_notExist (collEnv [(1, 10), (3, 30)] none) numList []).2.2.2.1 3 rfl,
   (collection_notExist (collEnv [] none) numList []).2.2.2.2.1 0 0 (by decide) rfl,
   (collection_notExist (collEnv [(1, 10), (3, 30)] none) numList []).2.2.2.2.2.1 1 3 rfl,
   (collection_notExist (collEnv [(1, 10), (3, 30)] none) numList []).2.2.2.2.2.2 3 0 0
      (by decide) rfl⟩

/-! ## C4: attribute names in `GetAttribute` and `SetAttribute` -/

/-- C4, the code at the failing input: on the bound object `ADDRESS{STREET, ZIP}`,
`SetAttribute("street", ..)` upper-cases the name and sets the attribute `STREET`
(descriptor 11), but `GetAttribute(.., "street")` looks the name up as it is,
makes no bridge call and returns an error wrapping `ErrNoSuchKey`, although the
normalised name `STREET` is a key of `Attributes`; `GetAttribute(.., "STREET")`
reads descriptor 11. -/
theorem getAttribute_not_normalized :
    containsQuote "street" = false ∧
    (mapLookup (okEnv.ToUpper "street") addressObject.ObjectType.Attributes).isSome = true ∧
    Object.GetAttribute okEnv (some addressObject) Data.zero "street" [] =
      Res.ret (Data.zero, some (GoError.wrap "street" GoError.ErrNoSuchKey)) [] ∧
    (Object.SetAttribute okEnv addressObject "street" Data.zero []).2 =
      (none, [Call.dpiObject_setAttributeValue (some 9) (some 11) 3004]) ∧
    (Object.GetAttribute okEnv (some addressObject) Data.zero "STREET" []).trace? =
      some [Call.dpiObject_getAttributeValue (some 9) (some 11) 3004] :=
  ⟨by decide, by decide, rfl, by decide, by decide⟩

/-! ## C5: `Object.Close` -/

/-- C5.  `Object.Close` is idempotent.  With a nil handle it returns nil and
makes no bridge call.  Whenever it returns nil, the handle is nil afterwards,
the history has grown by exactly one `dpiObject_release` of the handle if the
object was bound (by nothing otherwise), and a second `Close` returns nil, makes
no bridge call and changes nothing.  If the release of a bound object fails, the
object keeps its handle and the error wrapping `getError()` is returned. -/
theorem object_close_idempotent (E : Env) (O : Object) (tr : Trace) :
    (O.dpiObject = none → Object.Close E O tr = (O, none, tr)) ∧
    (∀ (O1 : Object) (tr1 : Trace), Object.Close E O tr = (O1, none, tr1) →
      O1.dpiObject = none ∧
      tr1 = tr ++ (if O.dpiObject = none then [] else [Call.dpiObject_release O.dpiObject]) ∧
      Object.Close E O1 tr1 = (O1, none, tr1)) ∧
    (O.dpiObject ≠ none → E.dpiObject_release tr O.dpiObject = false →
      Object.Close E O tr =
        (O, some (GoError.wrap "error on close object"
                    (getError E (tr ++ [Call.dpiObject_release O.dpiObject]))),
          tr ++ [Call.dpiObject_release O.dpiObject])) := by
  refine ⟨?_, ?_, ?_⟩
  · intro h; simp [Object.Close, h]
  · intro O1 tr1 h
    unfold Object.Close at h
    by_cases hn : O.dpiObject = none
    · simp only [hn, if_true, Prod.mk.injEq] at h
      obtain ⟨h1, _, h3⟩ := h
      subst h1; subst h3
      simp [Object.Close, hn]
    · simp only [hn, if_false] at h
      split at h
      · simp only [Prod.mk.injEq, true_and] at h
        obtain ⟨h1, h3⟩ := h
        subst h1; subst h3
        simp [Object.Close, hn]
      · simp at h
  · intro hn hf
    simp [Object.Close, hn, hf]

/-- C5, instances: closing the bound `addressObject` twice releases handle 9
once and returns nil both times; when the release fails the object keeps its
handle and an error is returned. -/
theorem object_close_idempotent_witness :
    Object.Close okEnv addressObject [] =
      (closedAddressObject, none, [Call.dpiObject_release (some 9)]) ∧
    Object.Close okEnv closedAddressObject [Call.dpiObject_release (some 9)] =
      (closedAddressObject, none, [Call.dpiObject_release (some 9)]) ∧
    Object.Close noReleaseEnv addressObject [] =
      (addressObject,
        some (GoError.wrap "error on close object" (GoError.ora 942 "ORA-00942")),
        [Call.dpiObject_release (some 9)]) :=
  ⟨rfl,
   ((object_close_idempotent okEnv addressObject []).2.1 closedAddressObject
      [Call.dpiObject_release (some 9)] rfl).2.2,
   (object_close_idempotent noReleaseEnv addressObject []).2.2 (by decide) rfl⟩

/-! ## C6: `ObjectType.close` -/

theorem closeAttrs_ok (E : Env) (l : List (String × ObjectAttribute)) :
    ∀ (tr tr1 : Trace), ObjectType.closeAttrs E l tr = (none, tr1) →
      tr1 = tr ++ attrReleaseCalls l := by
  induction l with
  | nil =>
    intro tr tr1 h
    simp only [ObjectType.closeAttrs, Prod.mk.injEq, true_and] at h
    simp [attrReleaseCalls, h]
  | cons p l ih =>
    intro tr tr1 h
    obtain ⟨k, attr⟩ := p
    unfold ObjectType.closeAttrs at h
    unfold ObjectAttribute.Close at h
    by_cases hn : attr.dpiObjectAttr = none
    · simp only [hn, if_true] at h
      have := ih _ _ h
      simp [attrReleaseCalls, hn] at this ⊢
      exact this
    · simp only [hn, if_false] at h
      by_cases hr : E.dpiObjectAttr_release tr attr.dpiObjectAttr = true
      · simp only [hr, if_true] at h
        have := ih _ _ h
        have hs : attr.dpiObjectAttr.isSome = true := by
          cases hd : attr.dpiObjectAttr with
          | none => exact absurd hd hn
          | some _ => rfl
        simp only [attrReleaseCalls, List.filter_cons, hs, if_true, List.map_cons] at this ⊢
        rw [this]; simp
      · simp [hr] at h

/-- C6.  `ObjectType.close` is idempotent.  On a nil pointer it returns nil.
Whenever `close` returns nil on an `ObjectType`, the bridge calls it made are
exactly one `dpiObjectAttr_release` per attribute that holds a descriptor, in
iteration order, followed by one `dpiObjectType_release` of the type handle if
that was not nil; afterwards `Attributes` and the type handle are nil, and a
second `close` returns nil, makes no bridge call and changes nothing. -/
theorem objectType_close_idempotent (E : Env) (t : ObjectType) (tr : Trace) :
    ObjectType.close E none tr = (none, none, tr) ∧
    (∀ (r : Option ObjectType) (tr1 : Trace), ObjectType.close E (some t) tr = (r, none, tr1) →
      ∃ t1 : ObjectType, r = some t1 ∧ t1.Attributes = none ∧ t1.dpiObjectType = none ∧
        tr1 = tr ++ attrReleaseCalls (t.Attributes.getD []) ++ typeReleaseCalls t.dpiObjectType ∧
        ObjectType.close E (some t1) tr1 = (some t1, none, tr1)) := by
  refine ⟨rfl, ?_⟩
  intro r tr1 h
  unfold ObjectType.close at h
  simp only at h
  split at h
  · simp at h
  · next tr2 hattrs =>
    have htr2 := closeAttrs_ok E _ _ _ hattrs
    refine ⟨{ t with Attributes := none, dpiObjectType := none }, ?_, rfl, rfl, ?_, ?_⟩
    · split at h
      · simp only [Prod.mk.injEq, true_and] at h; exact h.1.symm
      · split at h
        · simp only [Prod.mk.injEq, true_and] at h; exact h.1.symm
        · simp at h
    · by_cases hd : t.dpiObjectType = none
      · simp only [hd, if_true, Prod.mk.injEq, true_and] at h
        simp [typeReleaseCalls, hd, ← h.2, htr2]
      · simp only [hd, if_false] at h
        split at h
        · simp only [Prod.mk.injEq, true_and] at h
          simp [typeReleaseCalls, hd, ← h.2, htr2]
        · simp at h
    · simp [ObjectType.close, ObjectType.closeAttrs]

/-- C6, instance: closing `ADDRESS{STREET, ZIP}` releases the descriptors 11 and
12 and then the type handle 4, each once; the second `close` does nothing. -/
theorem objectType_close_idempotent_witness :
    ObjectType.close okEnv (some addressStruct) [] =
      (some closedAddressStruct, none,
        [Call.dpiObjectAttr_release (some 11), Call.dpiObjectAttr_release (some 12),
         Call.dpiObjectType_release (some 4)]) ∧
    ∃ t1 : ObjectType, some closedAddressStruct = some t1 ∧ t1.Attributes = none ∧
      t1.dpiObjectType = none ∧
      [Call.dpiObjectAttr_release (some 11), Call.dpiObjectAttr_release (some 12),
         Call.dpiObjectType_release (some 4)] =
        [] ++ attrReleaseCalls (addressStruct.Attributes.getD []) ++
          typeReleaseCalls addressStruct.dpiObjectType ∧
      ObjectType.close okEnv (some t1)
          [Call.dpiObjectAttr_release (some 11), Call.dpiObjectAttr_release (some 12),
           Call.dpiObjectType_release (some 4)] =
        (some t1, none,
          [Call.dpiObjectAttr_release (some 11), Call.dpiObjectAttr_release (some 12),
           Call.dpiObjectType_release (some 4)]) :=
  ⟨rfl, (objectType_close_idempotent okEnv addressStruct []).2 (some closedAddressStruct)
      [Call.dpiObjectAttr_release (some 11), Call.dpiObjectAttr_release (some 12),
       Call.dpiObjectType_release (some 4)] rfl⟩

/-! ## C7: the result of `AsSlice` on an error -/

/-- C7, the code at the failing input: on a collection holding the indices 0 and
1 (payloads 10 and 20) whose existence check fails at index 1, `GetItem` succeeds
for the first traversed index (k = 1) and fails on the next one.  `AsSlice` then
returns the error together with `dest` as it was passed in: `[7]` for
`dest = [7]` and nil for a nil `dest`; the element 10 that was already decoded
and appended is not in the result.  (Without the failure the result is
`[7, 10, 20]`.) -/
theorem asSlice_error_drops_decoded :
    (ObjectCollection.GetItem (collEnv [(0, 10), (1, 20)] (some 1)) numList
        (some Data.zero) 0 []).val?.map Prod.snd = some none ∧
    asSliceReturn (ObjectCollection.AsSlice (collEnv [(0, 10), (1, 20)] (some 1)) 5 numList
        (some [GoVal.int 7]) []) =
      some (some [GoVal.int 7], some (GoError.wrap "exists" (GoError.ora 942 "ORA-00942"))) ∧
    (ObjectCollection.AsSlice (collEnv [(0, 10), (1, 20)] (some 1)) 5 numList
        (some [GoVal.int 7]) []).trace? = some asSliceFailTrace ∧
    asSliceReturn (ObjectCollection.AsSlice (collEnv [(0, 10), (1, 20)] (some 1)) 5 numList
        none []) =
      some (none, some (GoError.wrap "exists" (GoError.ora 942 "ORA-00942"))) ∧
    asSliceReturn (ObjectCollection.AsSlice (collEnv [(0, 10), (1, 20)] none) 5 numList
        (some [GoVal.int 7]) []) =
      some (some [GoVal.int 7, GoVal.int 10, GoVal.int 20], none) :=
  ⟨by decide, by decide, by decide, by decide, by decide⟩

/-! ## C8: operations on an object without a native handle -/

/-- C9, the code at the failing inputs: on a bridge whose calls all fail,
`Trim`, `SetAttribute`, `ResetAttributes` and `NewObject` return the structured
error of `getError()` itself, without an operation label, whereas `Delete`,
`SetItem`, `Len` and `Object.Close` return it wrapped with their label. -/
theorem bare_bridge_errors :
    ObjectCollection.Trim failEnv numList 1 [] =
      (some sampleOraErr, [Call.dpiObject_trim (some 9) 1]) ∧
    (Object.SetAttribute failEnv addressObject "STREET" Data.zero []).2 =
      (some sampleOraErr, [Call.dpiObject_setAttributeValue (some 9) (some 11) 3004]) ∧
    (Object.ResetAttributes failEnv addressObject []).val? = some (some sampleOraErr) ∧
    (ObjectType.NewObject failEnv addressStruct []).val?.map Prod.snd =
      some (some sampleOraErr) ∧
    ObjectCollection.Delete failEnv numList 1 [] =
      (some (GoError.wrap "delete" sampleOraErr),
        [Call.dpiObject_deleteElementByIndex (some 9) 1]) ∧
    ObjectCollection.SetItem failEnv numList 1 Data.zero [] =
      (some (GoError.wrap "set" sampleOraErr),
        [Call.dpiObject_setElementValueByIndex (some 9) 1 0]) ∧
    (ObjectCollection.Len failEnv numList []).2.1 = some (GoError.wrap "len" sampleOraErr) ∧
    (Object.Close failEnv addressObject []).2.1 =
      some (GoError.wrap "error on close object" sampleOraErr) :=
  ⟨by decide, by decide, by decide, by decide, by decide, by decide, by decide, by decide⟩

/-! ## C10: native references on error returns -/

/-- C10, the code at the failing input: for a type with `CollectionOf` set and
one attribute, on a bridge where `dpiObjectType_createObject` succeeds and the
reset of the attribute fails, `NewObject` returns the object that owns the new
native reference 0 together with the error, but `NewCollection` returns
`(nil, err)`: the caller gets no object, and the history shows that reference 0
was created and never released. -/
theorem newCollection_drops_object :
    taggedListType.CollectionOf.isSome = true ∧
    ObjectType.NewObject setFailEnv taggedListType [] =
      Res.ret (some taggedListObject, some sampleOraErr) taggedListTrace ∧
    ObjectType.NewCollection setFailEnv taggedListType [] =
      Res.ret (none, some sampleOraErr) taggedListTrace ∧
    Call.dpiObject_release (some 0) ∉ taggedListTrace :=
  ⟨rfl, rfl, rfl, by decide⟩

/-! ## Supporting facts: which paths label the error, which keep the object -/

/-- The operations that do label a bridge failure: the error is the structured
error of `getError()` wrapped with the operation text. -/
theorem wrapped_bridge_errors (E : Env) (O : ObjectCollection) (tr : Trace) :
    (∀ data : Data,
      E.dpiObject_appendElement tr O.Object.dpiObject data.NativeTypeNum data.dpiData = false →
      (ObjectCollection.AppendData E O data tr).1 =
        some (GoError.wrap "append" (getError E (ObjectCollection.AppendData E O data tr).2))) ∧
    (∀ i : Int, E.dpiObject_deleteElementByIndex tr O.Object.dpiObject (toInt32 i) = false →
      (ObjectCollection.Delete E O i tr).1 =
        some (GoError.wrap "delete" (getError E (ObjectCollection.Delete E O i tr).2))) ∧
    (∀ (i : Int) (data : Data),
      E.dpiObject_setElementValueByIndex tr O.Object.dpiObject (toInt32 i) data.NativeTypeNum
        data.dpiData = false →
      (ObjectCollection.SetItem E O i data tr).1 =
        some (GoError.wrap "set" (getError E (ObjectCollection.SetItem E O i data tr).2))) ∧
    (∀ (i : Int) (data : Data),
      E.dpiObject_getElementExistsByIndex tr O.Object.dpiObject (toInt32 i) = none →
      ObjectCollection.GetItem E O (some data) i tr =
        Res.ret (data, some (GoError.wrap "exists" (getError E
            (tr ++ [Call.dpiObject_getElementExistsByIndex O.Object.dpiObject (toInt32 i)]))))
          (tr ++ [Call.dpiObject_getElementExistsByIndex O.Object.dpiObject (toInt32 i)])) ∧
    (E.dpiObject_getFirstIndex tr O.Object.dpiObject = none →
      (ObjectCollection.First E O tr).2.1 =
        some (GoError.wrap "first" (getError E (ObjectCollection.First E O tr).2.2))) ∧
    (E.dpiObject_getLastIndex tr O.Object.dpiObject = none →
      (ObjectCollection.Last E O tr).2.1 =
        some (GoError.wrap "last" (getError E (ObjectCollection.Last E O tr).2.2))) ∧
    (∀ i : Int, E.dpiObject_getNextIndex tr O.Object.dpiObject (toInt32 i) = none →
      (ObjectCollection.Next E O i tr).2.1 =
        some (GoError.wrap "next" (getError E (ObjectCollection.Next E O i tr).2.2))) ∧
    (E.dpiObject_getSize tr O.Object.dpiObject = none →
      (ObjectCollection.Len E O tr).2.1 =
        some (GoError.wrap "len" (getError E (ObjectCollection.Len E O tr).2.2))) ∧
    (O.Object.dpiObject ≠ none → E.dpiObject_release tr O.Object.dpiObject = false →
      (Object.Close E O.Object tr).2.1 =
        some (GoError.wrap "error on close object"
          (getError E (Object.Close E O.Object tr).2.2))) := by
  refine ⟨?_, ?_, ?_, ?_, ?_, ?_, ?_, ?_, ?_⟩
  · intro data h; simp [ObjectCollection.AppendData, h]
  · intro i h; simp [ObjectCollection.Delete, h]
  · intro i data h; simp [ObjectCollection.SetItem, h]
  · intro i data h; simp [ObjectCollection.GetItem, h]
  · intro h; simp [ObjectCollection.First, h]
  · intro h; simp [ObjectCollection.Last, h]
  · intro i h; simp [ObjectCollection.Next, h]
  · intro h; simp [ObjectCollection.Len, h]
  · intro hn h; simp [Object.Close, hn, h]

/-- The operations that do not label a bridge failure: `Trim` and `SetAttribute`
return the value of `getError()` itself. -/
theorem unlabelled_bridge_errors (E : Env) (O : ObjectCollection) (tr : Trace) :
    (∀ n : Int, E.dpiObject_trim tr O.Object.dpiObject (toUint32 n) = false →
      (ObjectCollection.Trim E O n tr).1 =
        some (getError E (ObjectCollection.Trim E O n tr).2)) ∧
    (∀ (name : String) (data : Data),
      (Object.SetAttribute E O.Object name data tr).2.1 = none ∨
      (Object.SetAttribute E O.Object name data tr).2.1 =
        some (getError E (Object.SetAttribute E O.Object name data tr).2.2)) := by
  refine ⟨?_, ?_⟩
  · intro n h; simp [ObjectCollection.Trim, h]
  · intro name data
    simp only [Object.SetAttribute]
    split
    · exact Or.inl rfl
    · exact Or.inr rfl

/-- The sibling paths of `NewCollection` keep the object: once
`dpiObjectType_createObject` has succeeded with the native object `obj`, every
return of `NewObject`, with or without an error, hands the `Object` owning `obj`
to the caller. -/
theorem newObject_returns_object (E : Env) (t : ObjectType) (tr tr1 : Trace) (obj : Handle)
    (O : Option Object) (err : Option GoError)
    (hc : E.dpiObjectType_createObject tr t.dpiObjectType = some obj)
    (h : ObjectType.NewObject E t tr = Res.ret (O, err) tr1) :
    O = some { ObjectType := t, scratch := Data.zero, dpiObject := obj } := by
  unfold ObjectType.NewObject at h
  simp only [hc] at h
  split at h
  · simp at h
  · simp at h
  · simp only [Res.ret.injEq, Prod.mk.injEq] at h
    exact h.1.1.symm

/-- The sibling path `wrapObject` keeps the object as well: once
`dpiObject_addRef` has succeeded, every return hands the `Object` owning the
reference to the caller, also when `init` fails. -/
theorem wrapObject_returns_object (E : Env) (fuel : Nat) (c : Option Nat) (objectType : Handle)
    (object : Handle) (tr tr1 : Trace) (O : Option Object) (err : Option GoError)
    (ht : objectType ≠ none) (ha : E.dpiObject_addRef tr object = true)
    (h : wrapObject E fuel c objectType object tr = Res.ret (O, err) tr1) :
    ∃ o : Object, O = some o ∧ o.dpiObject = object := by
  unfold wrapObject at h
  simp only [ht, if_false, ha, if_true] at h
  split at h
  · simp at h
  · simp at h
  · simp only [Res.ret.injEq, Prod.mk.injEq] at h
    exact ⟨_, h.1.1.symm, rfl⟩

/-- Every error return of the loop of `AsSlice` hands back `dest` as it was passed in
(while `needsInit` holds, `dr` is still the zero value). -/
theorem asSliceLoop_error_returns_dest (E : Env) (dest : Option (List GoVal)) :
    ∀ (fuel : Nat) (O : ObjectCollection) (dr : Option (List GoVal)) (needsInit : Bool)
      (i : Int) (tr : Trace) (O1 : ObjectCollection) (r : Option (List GoVal)) (err : GoError)
      (tr1 : Trace),
      (needsInit = true → dr = none) →
      ObjectCollection.AsSliceLoop E dest fuel O dr needsInit i tr =
        Res.ret (O1, r, some err) tr1 → r = dest := by
  intro fuel
  induction fuel with
  | zero => intro O dr needsInit i tr O1 r err tr1 _ h; simp [ObjectCollection.AsSliceLoop] at h
  | succ fuel ih =>
    intro O dr needsInit i tr O1 r err tr1 hinv h
    unfold ObjectCollection.AsSliceLoop at h
    simp only at h
    split at h
    · simp at h
    · split at h
      · simp at h
      · simp at h
      · simp only [Res.ret.injEq, Prod.mk.injEq] at h
        exact h.1.2.1.symm
      · split at h
        · -- needsInit
          next hni =>
          have hdr := hinv hni
          split at h
          · subst hdr
            simp [reflectInterface] at h
          · split at h
            · simp at h
            · split at h
              · simp at h
              · split at h
                · exact ih _ _ _ _ _ _ _ _ _ (by simp) h
                · simp at h
        · split at h
          · simp at h
          · split at h
            · simp at h
            · split at h
              · exact ih _ _ _ _ _ _ _ _ _ (by simp) h
              · simp at h

/-- Every error return of `AsSlice` hands back `dest` as it was passed in: the
elements decoded before the error are never part of the result. -/
theorem asSlice_error_returns_dest (E : Env) (fuel : Nat) (O O1 : ObjectCollection)
    (dest r : Option (List GoVal)) (err : GoError) (tr tr1 : Trace)
    (h : ObjectCollection.AsSlice E fuel O dest tr = Res.ret (O1, r, some err) tr1) :
    r = dest := by
  unfold ObjectCollection.AsSlice at h
  simp only at h
  split at h
  · exact asSliceLoop_error_returns_dest E dest _ _ _ _ _ _ _ _ _ _
      (by intro hn; cases dest <;> simp_all) h
  · cases dest <;> simp [reflectInterface] at h

/-! ## C11: the shape of an `ObjectType` after `init` -/

theorem attrSlice_length (n : Nat) (written : List Handle) :
    (attrSlice n written).length = n := by
  simp [attrSlice]

theorem attrEntries_spec (E : Env) (resolve : Option Nat → DataTypeInfo → Trace → InitRes)
    (c : Option Nat) (hs : List Handle) :
    ∀ (tr tr1 : Trace) (entries : List (String × ObjectAttribute)),
      attrEntries E resolve c hs tr = some (entries, tr1) →
        entries.length = hs.length ∧
        entries.map (fun p => p.2.dpiObjectAttr) = hs ∧
        ∀ p ∈ entries, p.2.Name = p.1 ∧
          ∃ (tr2 : Trace) (ai : ObjectAttrInfo),
            E.dpiObjectAttr_getInfo tr2 p.2.dpiObjectAttr = some ai ∧ ai.name = p.1 := by
  induction hs with
  | nil =>
    intro tr tr1 entries h
    simp only [attrEntries, Option.some.injEq, Prod.mk.injEq] at h
    obtain ⟨h1, _⟩ := h
    subst h1
    simp
  | cons a hs ih =>
    intro tr tr1 entries h
    unfold attrEntries at h
    split at h
    · simp at h
    · next ai hai =>
      split at h
      · next sub tr2 _ =>
        cases hrest : attrEntries E resolve c hs tr2 with
        | none => simp [hrest] at h
        | some r =>
          obtain ⟨es, tr3⟩ := r
          simp only [hrest, Option.map_some', Option.some.injEq, Prod.mk.injEq] at h
          obtain ⟨h1, _⟩ := h
          subst h1
          obtain ⟨hlen, hdesc, hnames⟩ := ih _ _ _ hrest
          refine ⟨by simp [hlen], by simp [hdesc], ?_⟩
          intro p hp
          rcases List.mem_cons.mp hp with hp | hp
          · subst hp
            exact ⟨rfl, tr, ai, hai, rfl⟩
          · exact hnames p hp
      · simp at h

theorem initAttrLoop_ok (E : Env) (initF : ObjectType → Trace → InitRes) (hs : List Handle) :
    ∀ (t t1 : ObjectType) (tr tr1 : Trace) (l0 : List (String × ObjectAttribute)),
      t.Attributes = some l0 →
      ObjectType.initAttrLoop E initF hs t tr = Res.ret (t1, none) tr1 →
        t1.CollectionOf = t.CollectionOf ∧
        ∃ entries : List (String × ObjectAttribute),
          attrEntries E (objectTypeFromDataTypeInfoWith initF) t.conn hs tr =
            some (entries, tr1) ∧
          t1.Attributes = some (insertAll entries l0) := by
  induction hs with
  | nil =>
    intro t t1 tr tr1 l0 hl h
    simp only [ObjectType.initAttrLoop, Res.ret.injEq, Prod.mk.injEq, and_true] at h
    obtain ⟨h1, h2⟩ := h
    subst h1; subst h2
    exact ⟨rfl, [], rfl, by simpa [insertAll] using hl⟩
  | cons a hs ih =>
    intro t t1 tr tr1 l0 hl h
    unfold ObjectType.initAttrLoop at h
    simp only at h
    split at h
    · simp at h
    · next attrInfo hattr =>
      split at h
      · simp at h
      · simp at h
      · simp at h
      · next sub tr2 hsub =>
        have := ih _ _ _ _ (mapInsert attrInfo.name
          { Name := attrInfo.name, dpiObjectAttr := a, ObjectType := sub } l0)
          (by simp [hl]) h
        obtain ⟨hc, entries, hentries, hattrs⟩ := this
        refine ⟨hc, (attrInfo.name,
          { Name := attrInfo.name, dpiObjectAttr := a, ObjectType := sub }) :: entries, ?_, ?_⟩
        · unfold attrEntries
          simp only [hattr, hsub]
          simp only at hentries
          rw [hentries]
          rfl
        · simpa [insertAll] using hattrs
/-- C11 (amended).  Let `init` succeed on an `ObjectType` that it really resolves
(native type handle set, not already initialised), from the provider record
`info`.  Then `CollectionOf` is set exactly when `info.isCollection = 1`, and
`Attributes` is the non-nil map obtained by assigning one entry per provider
attribute under the attribute's name: there are `info.numAttributes` entries to
assign; when that number is not 0 their descriptors are, in order, the slice
that `dpiObjectType_getAttributes` filled, and each entry is keyed by the name
that `dpiObjectAttr_getInfo` reports for its descriptor and holds that name,
the descriptor and the type resolved from the reported type info (the entries
are those of `attrEntries`).  So when the record does not combine
`isCollection = 1` with `numAttributes > 0`, exactly one shape is populated:
`CollectionOf` set and `Attributes` empty, or `CollectionOf` nil and
`Attributes` the attribute map. -/
theorem init_shape (E : Env) (fuel : Nat) (t t1 : ObjectType) (tr tr1 : Trace)
    (info : ObjectTypeInfo)
    (hfresh : ¬ (t.Name ≠ "" ∧ t.Attributes.isSome = true))
    (hh : t.dpiObjectType ≠ none)
    (hinfo : E.dpiObjectType_getInfo tr t.dpiObjectType = some info)
    (h : ObjectType.init E fuel t tr = Res.ret (t1, none) tr1) :
    (t1.CollectionOf.isSome = true ↔ info.isCollection = 1) ∧
    (∃ entries : List (String × ObjectAttribute), entries.length = info.numAttributes ∧
      t1.Attributes = some (insertAll entries []) ∧
      (∀ p ∈ entries, p.2.Name = p.1 ∧
        ∃ (tr2 : Trace) (ai : ObjectAttrInfo),
          E.dpiObjectAttr_getInfo tr2 p.2.dpiObjectAttr = some ai ∧ ai.name = p.1) ∧
      (info.numAttributes ≠ 0 → ∃ (tr2 : Trace) (written : List Handle),
        E.dpiObjectType_getAttributes tr2 t.dpiObjectType info.numAttributes = some written ∧
        entries.map (fun p => p.2.dpiObjectAttr) = attrSlice info.numAttributes written ∧
        attrEntries E (objectTypeFromDataTypeInfo E (fuel - 1)) t.conn
            (attrSlice info.numAttributes written)
            (tr2 ++ [Call.dpiObjectType_getAttributes t.dpiObjectType info.numAttributes]) =
          some (entries, tr1))) ∧
    (¬ (info.isCollection = 1 ∧ info.numAttributes ≠ 0) →
      (t1.CollectionOf.isSome = true ∧ t1.Attributes = some []) ∨
      (t1.CollectionOf = none ∧ t1.Attributes.isSome = true)) := by
  have key : (t1.CollectionOf.isSome = true ↔ info.isCollection = 1) ∧
      (∃ entries : List (String × ObjectAttribute), entries.length = info.numAttributes ∧
        t1.Attributes = some (insertAll entries []) ∧
        (∀ p ∈ entries, p.2.Name = p.1 ∧
          ∃ (tr2 : Trace) (ai : ObjectAttrInfo),
            E.dpiObjectAttr_getInfo tr2 p.2.dpiObjectAttr = some ai ∧ ai.name = p.1) ∧
        (info.numAttributes ≠ 0 → ∃ (tr2 : Trace) (written : List Handle),
          E.dpiObjectType_getAttributes tr2 t.dpiObjectType info.numAttributes = some written ∧
          entries.map (fun p => p.2.dpiObjectAttr) = attrSlice info.numAttributes written ∧
          attrEntries E (objectTypeFromDataTypeInfo E (fuel - 1)) t.conn
              (attrSlice info.numAttributes written)
              (tr2 ++ [Call.dpiObjectType_getAttributes t.dpiObjectType info.numAttributes]) =
            some (entries, tr1))) := by
    cases fuel with
    | zero => simp [ObjectType.init] at h
    | succ fuel =>
      have hfuel : fuel + 1 - 1 = fuel := rfl
      have hres : objectTypeFromDataTypeInfo E fuel =
          objectTypeFromDataTypeInfoWith (ObjectType.init E fuel) := rfl
      rw [hfuel, hres]
      unfold ObjectType.init at h
      simp only [hinfo] at h
      split at h
      · simp at h
      · by_cases hcoll : info.isCollection = 1
        · simp only [hcoll, if_true] at h
          split at h
          · simp at h
          · simp at h
          · simp at h
          · next t2 tr2 hafter =>
            split at hafter
            · simp at hafter
            · simp at hafter
            · simp at hafter
            · next elem tr3 _ =>
              simp only [Res.ret.injEq, Prod.mk.injEq, and_true] at hafter
              obtain ⟨ht2, htr⟩ := hafter
              subst ht2
              by_cases hn : info.numAttributes = 0
              · simp only [hn, if_true, Res.ret.injEq, Prod.mk.injEq, and_true] at h
                obtain ⟨h1, _⟩ := h
                subst h1
                exact ⟨by simp [hcoll], [], by simp [hn], rfl, by simp,
                  fun hne => absurd hn hne⟩
              · simp only [hn, if_false] at h
                split at h
                · simp at h
                · next written hw =>
                  obtain ⟨hc, entries, hentries, hattrs⟩ :=
                    initAttrLoop_ok E _ _ _ _ _ _ [] rfl h
                  obtain ⟨hlen, hdesc, hnames⟩ := attrEntries_spec E _ _ _ _ _ _ hentries
                  refine ⟨?_, entries, by simpa [attrSlice_length] using hlen, hattrs, hnames,
                    fun _ => ⟨tr2, written, hw, hdesc, hentries⟩⟩
                  rw [hc]; simp [hcoll]
        · simp only [hcoll, if_false] at h
          by_cases hn : info.numAttributes = 0
          · simp only [hn, if_true, Res.ret.injEq, Prod.mk.injEq, and_true] at h
            obtain ⟨h1, _⟩ := h
            subst h1
            exact ⟨by simp [hcoll], [], by simp [hn], rfl, by simp, fun hne => absurd hn hne⟩
          · simp only [hn, if_false] at h
            split at h
            · simp at h
            · next written hw =>
              obtain ⟨hc, entries, hentries, hattrs⟩ :=
                initAttrLoop_ok E _ _ _ _ _ _ [] rfl h
              obtain ⟨hlen, hdesc, hnames⟩ := attrEntries_spec E _ _ _ _ _ _ hentries
              refine ⟨?_, entries, by simpa [attrSlice_length] using hlen, hattrs, hnames,
                fun _ => ⟨_, written, hw, hdesc, hentries⟩⟩
              rw [hc]; simp [hcoll]
  obtain ⟨hcoll, entries, hlen, hattrs, hnames, hprov⟩ := key
  refine ⟨hcoll, ⟨entries, hlen, hattrs, hnames, hprov⟩, ?_⟩
  intro hnot
  by_cases hc : info.isCollection = 1
  · left
    have hn : info.numAttributes = 0 := by
      by_contra hne; exact hnot ⟨hc, hne⟩
    have : entries = [] := List.length_eq_zero.mp (hlen.trans hn)
    subst this
    exact ⟨hcoll.mpr hc, by simpa [insertAll] using hattrs⟩
  · right
    refine ⟨?_, by simp [hattrs]⟩
    cases hco : t1.CollectionOf with
    | none => rfl
    | some e => exact absurd (hcoll.mp (by simp [hco])) hc
/-- C11, an instance: `init` of the native type 4 on a provider that reports the
structured type `ADDRESS{STREET, ZIP}` gives `CollectionOf` nil and the map of
the two attributes, whose entries are those the provider's answers determine
for the descriptors 11 and 12. -/
theorem init_shape_witness :
    ObjectType.init structEnv 2 (unresolvedType 4) [] = Res.ret (addressStruct, none) structTrace ∧
    ¬ (structInfo.isCollection = 1 ∧ structInfo.numAttributes ≠ 0) ∧
    attrEntries structEnv (objectTypeFromDataTypeInfo structEnv 1) (some 1) [some 11, some 12]
        [Call.dpiObjectType_getInfo (some 4), Call.dpiObjectType_getAttributes (some 4) 2] =
      some (addressAttributes, structTrace) ∧
    (addressStruct.CollectionOf.isSome = true ↔ structInfo.isCollection = 1) ∧
    (∃ entries : List (String × ObjectAttribute), entries.length = structInfo.numAttributes ∧
      addressStruct.Attributes = some (insertAll entries []) ∧
      (∀ p ∈ entries, p.2.Name = p.1 ∧
        ∃ (tr2 : Trace) (ai : ObjectAttrInfo),
          structEnv.dpiObjectAttr_getInfo tr2 p.2.dpiObjectAttr = some ai ∧ ai.name = p.1) ∧
      (structInfo.numAttributes ≠ 0 → ∃ (tr2 : Trace) (written : List Handle),
        structEnv.dpiObjectType_getAttributes tr2 (unresolvedType 4).dpiObjectType
          structInfo.numAttributes = some written ∧
        entries.map (fun p => p.2.dpiObjectAttr) = attrSlice structInfo.numAttributes written ∧
        attrEntries structEnv (objectTypeFromDataTypeInfo structEnv (2 - 1))
            (unresolvedType 4).conn (attrSlice structInfo.numAttributes written)
            (tr2 ++ [Call.dpiObjectType_getAttributes (unresolvedType 4).dpiObjectType
                       structInfo.numAttributes]) =
          some (entries, structTrace))) ∧
    ((addressStruct.CollectionOf.isSome = true ∧ addressStruct.Attributes = some []) ∨
      (addressStruct.CollectionOf = none ∧ addressStruct.Attributes.isSome = true)) :=
  ⟨rfl, by decide, rfl,
   (init_shape structEnv 2 (unresolvedType 4) addressStruct [] structTrace structInfo
      (by decide) (by decide) rfl rfl).1,
   (init_shape structEnv 2 (unresolvedType 4) addressStruct [] structTrace structInfo
      (by decide) (by decide) rfl rfl).2.1,
   (init_shape structEnv 2 (unresolvedType 4) addressStruct [] structTrace structInfo
      (by decide) (by decide) rfl rfl).2.2 (by decide)⟩

/-- C11 as stated fails: when the provider record has `isCollection = 1` and
`numAttributes = 1`, `init` succeeds and leaves both shapes populated:
`CollectionOf` is set and `Attributes` holds the attribute `TAG`. -/
theorem init_both_shapes :
    initShape (ObjectType.init bothEnv 2 (unresolvedType 5) []) = some (true, ["TAG"], none) ∧
    (ObjectType.init bothEnv 2 (unresolvedType 5) []).trace? =
      some [Call.dpiObjectType_getInfo (some 5), Call.dpiObjectType_getAttributes (some 5) 1,
            Call.dpiObjectAttr_getInfo (some 21)] :=
  ⟨by decide, by decide⟩

/-! ## C12: resolution of a self-referential type graph -/

theorem nodeEnv_getInfo_node (tr : Trace) :
    nodeEnv.dpiObjectType_getInfo tr (some 1) =
      some { schema := "SCOTT", name := "NODE", isCollection := 0,
             elementTypeInfo := scalarInfo 0 0, numAttributes := 1 } := rfl

theorem nodeEnv_getInfo_list (tr : Trace) :
    nodeEnv.dpiObjectType_getInfo tr (some 2) =
      some { schema := "SCOTT", name := "NODE_LIST", isCollection := 1,
             elementTypeInfo := objectInfo 1, numAttributes := 0 } := rfl

theorem nodeEnv_getAttributes (tr : Trace) (t : Handle) (n : Nat) :
    nodeEnv.dpiObjectType_getAttributes tr t n = some [some 3] := rfl

theorem nodeEnv_attrInfo (tr : Trace) (a : Handle) :
    nodeEnv.dpiObjectAttr_getInfo tr a =
      some { name := "CHILDREN", typeInfo := objectInfo 2 } := rfl

theorem node_init_diverges (fuel : Nat) :
    (∀ (t : ObjectType) (tr : Trace), t.conn ≠ none → t.Name = "" →
      t.dpiObjectType = some 1 → ObjectType.init nodeEnv fuel t tr = Res.fuelOut) ∧
    (∀ (t : ObjectType) (tr : Trace), t.conn ≠ none → t.Name = "" →
      t.dpiObjectType = some 2 → ObjectType.init nodeEnv fuel t tr = Res.fuelOut) := by
  induction fuel with
  | zero => exact ⟨fun _ _ _ _ _ => rfl, fun _ _ _ _ _ => rfl⟩
  | succ fuel ih =>
    constructor
    · intro t tr hc hn hh
      have hinner := fun tr1 => ih.2
        { dpiObjectType := some 2, conn := t.conn, Schema := "", Name := "", DBSize := 0,
          ClientSizeInBytes := 0, CharSize := 0, CollectionOf := none, Attributes := none,
          OracleTypeNum := 2023, NativeTypeNum := 3009, Precision := 0, Scale := 0,
          FsPrecision := 0 } tr1 hc rfl rfl
      unfold ObjectType.init
      simp only [hc, hn, hh, nodeEnv_getInfo_node, nodeEnv_getAttributes]
      simp [attrSlice, ObjectType.initAttrLoop, objectTypeFromDataTypeInfoWith,
        ObjectType.fromDataTypeInfoWith, objectInfo, hc, ObjectType.zero, nodeEnv_attrInfo,
        hinner]
    · intro t tr hc hn hh
      have hinner := fun tr1 => ih.1
        { dpiObjectType := some 1, conn := t.conn, Schema := "", Name := "", DBSize := 0,
          ClientSizeInBytes := 0, CharSize := 0, CollectionOf := none, Attributes := none,
          OracleTypeNum := 2023, NativeTypeNum := 3009, Precision := 0, Scale := 0,
          FsPrecision := 0 } tr1 hc rfl rfl
      unfold ObjectType.init
      simp only [hc, hn, hh, nodeEnv_getInfo_list]
      simp [ObjectType.fromDataTypeInfoWith, objectInfo, hc, ObjectType.zero, hinner]
/-- C12, the code at the failing input: on the provider with the self-referential
types `NODE` and `NODE_LIST`, `GetObjectType("node")` does not return for any
amount of fuel: `init` of `NODE` calls `init` of its attribute type `NODE_LIST`,
which calls `init` of its element type `NODE` again, and so on without end; the
cache is not consulted and receives no entry on the way. -/
theorem getObjectType_selfReference_diverges (fuel : Nat) :
    conn.GetObjectType nodeEnv fuel freshConn "node" [] = Res.fuelOut := by
  have hup : normalizeName nodeEnv "node" = "NODE" := by decide
  have hget : ∀ (tr : Trace) (c : Handle) (n : String),
      nodeEnv.dpiConn_getObjectType tr c n = some (some 1) := fun _ _ _ => rfl
  have hinit := fun tr1 => (node_init_diverges fuel).1
    { ObjectType.zero with conn := some freshConn.id, dpiObjectType := some 1 } tr1
    (by simp) rfl rfl
  unfold conn.GetObjectType
  simp only [hup, hget]
  simp [mapLookup, freshConn] at hinit ⊢
  simp [hinit]

/-- More fuel does not change a result: the attribute loop with a more patient
`init` agrees with the loop that already finished. -/
theorem initAttrLoop_mono (E : Env) (initF initG : ObjectType → Trace → InitRes)
    (hFG : ∀ t tr, initF t tr ≠ Res.fuelOut → initG t tr = initF t tr) (hs : List Handle) :
    ∀ (t : ObjectType) (tr : Trace),
      ObjectType.initAttrLoop E initF hs t tr ≠ Res.fuelOut →
      ObjectType.initAttrLoop E initG hs t tr = ObjectType.initAttrLoop E initF hs t tr := by
  induction hs with
  | nil => intro t tr _; rfl
  | cons a hs ih =>
    intro t tr h
    unfold ObjectType.initAttrLoop at h ⊢
    simp only at h ⊢
    split
    · rfl
    · next attrInfo hattr =>
      simp only [hattr] at h
      unfold objectTypeFromDataTypeInfoWith at h ⊢
      by_cases hc : t.conn = none
      · simp [hc]
      · by_cases ho : attrInfo.typeInfo.oracleTypeNum = 0
        · simp [hc, ho]
        · simp only [hc, ho, if_false] at h ⊢
          unfold ObjectType.fromDataTypeInfoWith at h ⊢
          have hne : initF
              { ObjectType.zero with
                conn := t.conn,
                dpiObjectType := attrInfo.typeInfo.objectType,
                OracleTypeNum := attrInfo.typeInfo.oracleTypeNum,
                NativeTypeNum := attrInfo.typeInfo.defaultNativeTypeNum,
                DBSize := attrInfo.typeInfo.dbSizeInBytes,
                ClientSizeInBytes := attrInfo.typeInfo.clientSizeInBytes,
                CharSize := attrInfo.typeInfo.sizeInChars,
                Precision := attrInfo.typeInfo.precision,
                Scale := attrInfo.typeInfo.scale,
                FsPrecision := attrInfo.typeInfo.fsPrecision }
              (tr ++ [Call.dpiObjectAttr_getInfo a]) ≠ Res.fuelOut := by
            intro hf
            apply h
            simp only at hf ⊢
            rw [hf]
          have := hFG _ _ hne
          simp only at this ⊢
          rw [this]
          split
          · rfl
          · rfl
          · rfl
          · next sub tr2 hsub =>
            simp only [hsub] at h
            exact ih _ _ h
/-- More fuel does not change a result of `init`: a call that returns or panics
with some fuel does the same with more.  So a call that is out of fuel for every
amount of fuel is a call that does not terminate. -/
theorem init_fuel_succ (E : Env) (fuel : Nat) :
    ∀ (t : ObjectType) (tr : Trace), ObjectType.init E fuel t tr ≠ Res.fuelOut →
      ObjectType.init E (fuel + 1) t tr = ObjectType.init E fuel t tr := by
  induction fuel with
  | zero => intro t tr h; exact absurd rfl h
  | succ fuel ih =>
    intro t tr h
    unfold ObjectType.init at h ⊢
    by_cases hc : t.conn = none
    · simp [hc]
    by_cases hfresh : t.Name ≠ "" ∧ t.Attributes.isSome = true
    · simp [hc, hfresh]
    by_cases hh : t.dpiObjectType = none
    · simp [hc, hfresh, hh]
    cases hinfo : E.dpiObjectType_getInfo tr t.dpiObjectType with
    | none => simp [hc, hfresh, hh, hinfo]
    | some info =>
      simp only [hc, hfresh, hh, if_false, hinfo] at h ⊢
      by_cases hcoll : info.isCollection = 1
      · simp only [hcoll, if_true] at h ⊢
        unfold ObjectType.fromDataTypeInfoWith at h ⊢
        simp only at h ⊢
        have hne : ObjectType.init E fuel
            { ObjectType.zero with
              conn := t.conn,
              dpiObjectType := info.elementTypeInfo.objectType,
              OracleTypeNum := info.elementTypeInfo.oracleTypeNum,
              NativeTypeNum := info.elementTypeInfo.defaultNativeTypeNum,
              DBSize := info.elementTypeInfo.dbSizeInBytes,
              ClientSizeInBytes := info.elementTypeInfo.clientSizeInBytes,
              CharSize := info.elementTypeInfo.sizeInChars,
              Precision := info.elementTypeInfo.precision,
              Scale := info.elementTypeInfo.scale,
              FsPrecision := info.elementTypeInfo.fsPrecision }
            (tr ++ [Call.dpiObjectType_getInfo t.dpiObjectType]) ≠ Res.fuelOut := by
          intro hf
          apply h
          simp only at hf ⊢
          rw [hf]
        have hrw := ih _ _ hne
        simp only at hrw ⊢
        rw [hrw]
        split
        · rfl
        · rfl
        · rfl
        · next t2 tr2 hafter =>
          simp only [hafter] at h
          by_cases hn : info.numAttributes = 0
          · simp [hn]
          · simp only [hn, if_false] at h ⊢
            split
            · rfl
            · next written hw =>
              simp only [hw] at h
              exact initAttrLoop_mono E _ _ ih _ _ _ h
      · simp only [hcoll, if_false] at h ⊢
        by_cases hn : info.numAttributes = 0
        · simp [hn]
        · simp only [hn, if_false] at h ⊢
          split
          · rfl
          · next written hw =>
            simp only [hw] at h
            exact initAttrLoop_mono E _ _ ih _ _ _ h

/-! ## C13: traversal errors in `AsSlice` -/

theorem asSliceLoop_error_from_getItem (E : Env) (dest : Option (List GoVal)) :
    ∀ (fuel : Nat) (O : ObjectCollection) (dr : Option (List GoVal)) (needsInit : Bool)
      (i : Int) (tr : Trace) (O1 : ObjectCollection) (r : Option (List GoVal)) (err : GoError)
      (tr1 : Trace),
      (needsInit = true → dr = none) →
      ObjectCollection.AsSliceLoop E dest fuel O dr needsInit i tr =
        Res.ret (O1, r, some err) tr1 →
      ∃ (O2 : ObjectCollection) (d d1 : Data) (j : Int) (tr0 : Trace),
        ObjectCollection.GetItem E O2 (some d) j tr0 = Res.ret (d1, some err) tr1 := by
  intro fuel
  induction fuel with
  | zero => intro O dr needsInit i tr O1 r err tr1 _ h; simp [ObjectCollection.AsSliceLoop] at h
  | succ fuel ih =>
    intro O dr needsInit i tr O1 r err tr1 hinv h
    unfold ObjectCollection.AsSliceLoop at h
    simp only at h
    split at h
    · simp at h
    · split at h
      · simp at h
      · simp at h
      · next scratch err0 tr0 hget =>
        simp only [Res.ret.injEq, Prod.mk.injEq, Option.some.injEq] at h
        obtain ⟨⟨_, _, herr⟩, htr⟩ := h
        subst herr; subst htr
        exact ⟨_, _, _, _, _, hget⟩
      · split at h
        · next hni =>
          have hdr := hinv hni
          split at h
          · subst hdr
            simp [reflectInterface] at h
          · split at h
            · simp at h
            · split at h
              · simp at h
              · split at h
                · exact ih _ _ _ _ _ _ _ _ _ (by simp) h
                · simp at h
        · split at h
          · simp at h
          · split at h
            · simp at h
            · split at h
              · exact ih _ _ _ _ _ _ _ _ _ (by simp) h
              · simp at h
/-- C13 (amended).  `AsSlice` does not distinguish a traversal failure from the
end of the collection.  (1) If `First()` returns any error and `dest` was
supplied, `AsSlice` returns the elements of `dest` with a nil error.  (2) and
(3): if, in an iteration of the loop, the element is decoded and appended and
`Next(i)` then returns any error, the loop ends and `AsSlice` returns the
elements gathered so far (with the one just decoded) and a nil error; (2) is
the iteration on a slice already started, (3) the first iteration for a nil
`dest`, after a successful `Len`.  (4) Every error that `AsSlice` returns is the
error of a `GetItem` call, returned with the history of that call; no error of
`First` or `Next` is ever returned. -/
theorem asSlice_traversal_errors (E : Env) (dest : Option (List GoVal)) :
    (∀ (fuel : Nat) (O : ObjectCollection) (tr : Trace) (d : List GoVal) (e : GoError),
      dest = some d → (ObjectCollection.First E O tr).2.1 = some e →
      ObjectCollection.AsSlice E fuel O dest tr =
        Res.ret (O, some d, none) (ObjectCollection.First E O tr).2.2) ∧
    (∀ (fuel : Nat) (O : ObjectCollection) (elem : ObjectType) (l : List GoVal) (i : Int)
      (tr tr1 : Trace) (scratch : Data) (e : GoError),
      O.Object.ObjectType.CollectionOf = some elem →
      ObjectCollection.GetItem E (asSliceScratch O elem)
        (some (asSliceScratch O elem).Object.scratch) i tr = Res.ret (scratch, none) tr1 →
      E.Get scratch ≠ GoVal.null →
      (ObjectCollection.Next E (withScratch (asSliceScratch O elem) scratch) i tr1).2.1 =
        some e →
      ObjectCollection.AsSliceLoop E dest (fuel + 1) O (some l) false i tr =
        Res.ret (withScratch (asSliceScratch O elem) scratch, some (l ++ [E.Get scratch]), none)
          (ObjectCollection.Next E (withScratch (asSliceScratch O elem) scratch) i tr1).2.2) ∧
    (∀ (fuel : Nat) (O : ObjectCollection) (elem : ObjectType) (i n : Int)
      (tr tr1 tr2 : Trace) (scratch : Data) (e : GoError),
      O.Object.ObjectType.CollectionOf = some elem →
      ObjectCollection.GetItem E (asSliceScratch O elem)
        (some (asSliceScratch O elem).Object.scratch) i tr = Res.ret (scratch, none) tr1 →
      E.Get scratch ≠ GoVal.null →
      ObjectCollection.Len E (withScratch (asSliceScratch O elem) scratch) tr1 = (n, none, tr2) →
      0 ≤ n →
      (ObjectCollection.Next E (withScratch (asSliceScratch O elem) scratch) i tr2).2.1 =
        some e →
      ObjectCollection.AsSliceLoop E dest (fuel + 1) O none true i tr =
        Res.ret (withScratch (asSliceScratch O elem) scratch, some [E.Get scratch], none)
          (ObjectCollection.Next E (withScratch (asSliceScratch O elem) scratch) i tr2).2.2) ∧
    (∀ (fuel : Nat) (O O1 : ObjectCollection) (tr tr1 : Trace) (r : Option (List GoVal))
      (err : GoError),
      ObjectCollection.AsSlice E fuel O dest tr = Res.ret (O1, r, some err) tr1 →
      ∃ (O2 : ObjectCollection) (d d1 : Data) (j : Int) (tr0 : Trace),
        ObjectCollection.GetItem E O2 (some d) j tr0 = Res.ret (d1, some err) tr1) := by
  refine ⟨?_, ?_, ?_, ?_⟩
  · intro fuel O tr d e hd he
    subst hd
    unfold ObjectCollection.AsSlice
    simp only
    split
    · next i tr1 hf => rw [hf] at he; simp at he
    · next tr1 hf => simp [reflectInterface, hf]
  · intro fuel O elem l i tr tr1 scratch e hcoll hget hval hnext
    unfold ObjectCollection.AsSliceLoop
    simp only [asSliceScratch, withScratch] at hget hnext ⊢
    simp only [hcoll, hget]
    simp only [Bool.false_eq_true, if_false, hval]
    split
    · next j tr3 hn => rw [hn] at hnext; simp at hnext
    · next tr3 hn => simp [hn]
  · intro fuel O elem i n tr tr1 tr2 scratch e hcoll hget hval hlen hn0 hnext
    unfold ObjectCollection.AsSliceLoop
    simp only [asSliceScratch, withScratch] at hget hnext hlen ⊢
    simp only [hcoll, hget, hlen]
    simp only [if_true, hval, if_false, not_lt.mpr hn0, List.nil_append]
    split
    · next j tr3 hn => rw [hn] at hnext; simp at hnext
    · next tr3 hn => simp [hn]
  · intro fuel O O1 tr tr1 r err h
    unfold ObjectCollection.AsSlice at h
    simp only at h
    split at h
    · exact asSliceLoop_error_from_getItem E dest _ _ _ _ _ _ _ _ _ _
        (by intro hn; cases dest <;> simp_all) h
    · cases dest <;> simp [reflectInterface] at h
/-- C13, instances on a collection holding the indices 0 and 1: when `First`
fails in the bridge, `AsSlice([7])` returns `[7]` and a nil error; when `Next`
fails in the bridge after element 0 (payload 10) was decoded, the loop ends
with `[7, 10]` and a nil error. -/
theorem asSlice_traversal_errors_witness :
    (ObjectCollection.First firstFailEnv numList []).2.1 =
      some (GoError.wrap "first" sampleOraErr) ∧
    ObjectCollection.AsSlice firstFailEnv 5 numList (some [GoVal.int 7]) [] =
      Res.ret (numList, some [GoVal.int 7], none) [Call.dpiObject_getFirstIndex (some 9)] ∧
    (ObjectCollection.Next nextFailEnv (withScratch (asSliceScratch numList intElemType)
        scratchTen) 0
        [Call.dpiObject_getFirstIndex (some 9),
         Call.dpiObject_getElementExistsByIndex (some 9) 0,
         Call.dpiObject_getElementValueByIndex (some 9) 0 3000]).2.1 =
      some (GoError.wrap "next" sampleOraErr) ∧
    ObjectCollection.AsSliceLoop nextFailEnv (some [GoVal.int 7]) 1 numList
        (some [GoVal.int 7]) false 0 [Call.dpiObject_getFirstIndex (some 9)] =
      Res.ret (withScratch (asSliceScratch numList intElemType) scratchTen,
          some ([GoVal.int 7] ++ [nextFailEnv.Get scratchTen]), none)
        [Call.dpiObject_getFirstIndex (some 9),
         Call.dpiObject_getElementExistsByIndex (some 9) 0,
         Call.dpiObject_getElementValueByIndex (some 9) 0 3000,
         Call.dpiObject_getNextIndex (some 9) 0] ∧
    asSliceReturn (ObjectCollection.AsSlice nextFailEnv 5 numList (some [GoVal.int 7]) []) =
      some (some [GoVal.int 7, GoVal.int 10], none) :=
  ⟨by decide,
   (asSlice_traversal_errors firstFailEnv (some [GoVal.int 7])).1 5 numList [] [GoVal.int 7]
      (GoError.wrap "first" sampleOraErr) rfl (by decide),
   by decide,
   (asSlice_traversal_errors nextFailEnv (some [GoVal.int 7])).2.1 0 numList intElemType
      [GoVal.int 7] 0 [Call.dpiObject_getFirstIndex (some 9)]
      [Call.dpiObject_getFirstIndex (some 9),
       Call.dpiObject_getElementExistsByIndex (some 9) 0,
       Call.dpiObject_getElementValueByIndex (some 9) 0 3000]
      scratchTen (GoError.wrap "next" sampleOraErr) rfl rfl (by decide) (by decide),
   by decide⟩

/-- C13 as stated fails for a nil `dest`: when `First()` returns an error (here
a bridge failure) nothing was gathered, `dr` is still the zero `reflect.Value`,
and `AsSlice` panics in `dr.Interface()` instead of returning a result with a
nil error. -/
theorem asSlice_first_error_nil_dest :
    (ObjectCollection.First firstFailEnv numList []).2.1 =
      some (GoError.wrap "first" sampleOraErr) ∧
    (ObjectCollection.AsSlice firstFailEnv 5 numList none []).panicMsg? =
      some "reflect: call of reflect.Value.Interface on zero Value" ∧
    asSliceReturn (ObjectCollection.AsSlice firstFailEnv 5 numList none []) = none :=
  ⟨by decide, by decide, by decide⟩

/-! ## C14: panics of `AsSlice` -/

/-- C14, the code at the failing inputs: with a nil `dest`, `AsSlice` panics in
`dr.Interface()` on the zero `reflect.Value` (a) on an empty collection, where
`First()` returns `ErrNotExist` before any element is decoded, and (b) when
`Len()` fails on the first element; it returns no result in either case.  With
an empty slice as `dest` the same two calls return. -/
theorem asSlice_panics_on_nil_dest :
    (ObjectCollection.First (collEnv [] none) numList []).2.1 = some GoError.ErrNotExist ∧
    (ObjectCollection.AsSlice (collEnv [] none) 5 numList none []).panicMsg? =
      some "reflect: call of reflect.Value.Interface on zero Value" ∧
    (ObjectCollection.Len lenFailEnv numList []).2.1 =
      some (GoError.wrap "len" sampleOraErr) ∧
    (ObjectCollection.AsSlice lenFailEnv 5 numList none []).panicMsg? =
      some "reflect: call of reflect.Value.Interface on zero Value" ∧
    asSliceReturn (ObjectCollection.AsSlice (collEnv [] none) 5 numList (some []) []) =
      some (some [], none) ∧
    asSliceReturn (ObjectCollection.AsSlice lenFailEnv 5 numList (some []) []) =
      some (some [GoVal.int 10], none) :=
  ⟨by decide, by decide, by decide, by decide, by decide, by decide⟩

/-- With a nil `dest`, every error of `First()` makes `AsSlice` panic, whatever
the bridge and the collection. -/
theorem asSlice_nil_dest_first_error (E : Env) (fuel : Nat) (O : ObjectCollection) (tr : Trace)
    (e : GoError) (he : (ObjectCollection.First E O tr).2.1 = some e) :
    ObjectCollection.AsSlice E fuel O none tr =
      Res.panic "reflect: call of reflect.Value.Interface on zero Value" := by
  unfold ObjectCollection.AsSlice
  simp only
  split
  · next i tr1 hf => rw [hf] at he; simp at he
  · simp [reflectInterface]

/-- With a nil `dest`, a failure of `Len()` on the first element makes `AsSlice`
panic: the statement `return dr.Interface(), lengthErr` is reached only while
`dr` is the zero `reflect.Value`. -/
theorem asSliceLoop_len_error (E : Env) (dest : Option (List GoVal)) (fuel : Nat)
    (O : ObjectCollection) (elem : ObjectType) (i : Int) (tr tr1 : Trace) (scratch : Data)
    (e : GoError)
    (hcoll : O.Object.ObjectType.CollectionOf = some elem)
    (hget : ObjectCollection.GetItem E (asSliceScratch O elem)
      (some (asSliceScratch O elem).Object.scratch) i tr = Res.ret (scratch, none) tr1)
    (hlen : (ObjectCollection.Len E (withScratch (asSliceScratch O elem) scratch) tr1).2.1 =
      some e) :
    ObjectCollection.AsSliceLoop E dest (fuel + 1) O none true i tr =
      Res.panic "reflect: call of reflect.Value.Interface on zero Value" := by
  unfold ObjectCollection.AsSliceLoop
  simp only [asSliceScratch, withScratch] at hget hlen ⊢
  simp only [hcoll, hget]
  simp only [if_true]
  split
  · simp [reflectInterface]
  · next n tr2 hl => rw [hl] at hlen; simp at hlen

/-! ## Supporting facts: resolution terminates on type graphs without cycles -/

theorem initAttrLoop_terminates (E : Env) (initF : ObjectType → Trace → InitRes)
    (hs : List Handle)
    (hF : ∀ a ∈ hs, ∀ (tr : Trace) (ai : ObjectAttrInfo),
      E.dpiObjectAttr_getInfo tr a = some ai →
      ∀ (t : ObjectType) (tr1 : Trace), t.dpiObjectType = ai.typeInfo.objectType →
        initF t tr1 ≠ Res.fuelOut) :
    ∀ (t : ObjectType) (tr : Trace), ObjectType.initAttrLoop E initF hs t tr ≠ Res.fuelOut := by
  induction hs with
  | nil => intro t tr; simp [ObjectType.initAttrLoop]
  | cons a hs ih =>
    intro t tr
    have ih1 := ih (fun b hb => hF b (List.mem_cons_of_mem a hb))
    unfold ObjectType.initAttrLoop
    simp only
    split
    · simp
    · next attrInfo hattr =>
      have hsub := hF a (List.mem_cons_self a hs) tr attrInfo hattr
      unfold objectTypeFromDataTypeInfoWith
      by_cases hc : t.conn = none
      · simp [hc]
      · by_cases ho : attrInfo.typeInfo.oracleTypeNum = 0
        · simp [hc, ho]
        · simp only [hc, ho, if_false]
          unfold ObjectType.fromDataTypeInfoWith
          split
          · simp
          · next heq => exact absurd heq (hsub _ _ rfl)
          · simp
          · exact ih1 _ _

/-- On a provider type graph without cycles `init` terminates: with the fuel
`fuelNeeded rank h` for its native type `h`, or more, it returns or panics. -/
theorem init_terminates_ranked (E : Env) (rank : Nat → Nat) (hG : RankedGraph E rank)
    (fuel : Nat) :
    ∀ (t : ObjectType) (tr : Trace), fuelNeeded rank t.dpiObjectType ≤ fuel →
      ObjectType.init E fuel t tr ≠ Res.fuelOut := by
  induction fuel with
  | zero =>
    intro t tr h
    cases hd : t.dpiObjectType with
    | none => simp [hd, fuelNeeded] at h
    | some x => simp [hd, fuelNeeded] at h
  | succ fuel ih =>
    intro t tr h
    unfold ObjectType.init
    by_cases hc : t.conn = none
    · simp [hc]
    by_cases hfresh : t.Name ≠ "" ∧ t.Attributes.isSome = true
    · simp [hc, hfresh]
    cases hd : t.dpiObjectType with
    | none => simp [hc, hfresh, hd]
    | some x =>
      rw [hd] at h
      simp only [fuelNeeded] at h
      have hchild : ∀ (s : Handle), (∀ y, s = some y → rank y < rank x) →
          fuelNeeded rank s ≤ fuel := by
        intro s hs
        cases s with
        | none => simp only [fuelNeeded]; omega
        | some y => have := hs y rfl; simp only [fuelNeeded]; omega
      cases hinfo : E.dpiObjectType_getInfo tr (some x) with
      | none => simp [hc, hfresh, hd, hinfo]
      | some info =>
        have hsn : ((some x : Handle) = none) = False := by simp
        simp only [hc, hfresh, hd, hsn, if_false, hinfo]
        have hloop : ∀ (t2 : ObjectType) (tr2 : Trace) (written : List Handle),
            E.dpiObjectType_getAttributes tr2 (some x) info.numAttributes = some written →
            ObjectType.initAttrLoop E (ObjectType.init E fuel)
              (attrSlice info.numAttributes written) t2 (tr2 ++
                [Call.dpiObjectType_getAttributes (some x) info.numAttributes]) ≠
              Res.fuelOut := by
          intro t2 tr2 written hw
          apply initAttrLoop_terminates
          intro a ha tr3 ai hai t3 tr4 ht3
          apply ih
          rw [ht3]
          exact hchild _ (fun y hy => hG.2 tr2 tr3 x info.numAttributes written a ai y hw ha hai hy)
        have htail : ∀ (t2 : ObjectType) (tr2 : Trace),
            (if info.numAttributes = 0 then
              (Res.ret ({ t2 with Attributes := some [] }, none) tr2 : InitRes)
            else
              match E.dpiObjectType_getAttributes tr2 (some x) info.numAttributes with
              | none => Res.ret ({ t2 with Attributes := some [] },
                  some (GoError.wrap "getAttributes" (getError E (tr2 ++
                    [Call.dpiObjectType_getAttributes (some x) info.numAttributes]))))
                  (tr2 ++ [Call.dpiObjectType_getAttributes (some x) info.numAttributes])
              | some written =>
                ObjectType.initAttrLoop E (ObjectType.init E fuel)
                  (attrSlice info.numAttributes written) { t2 with Attributes := some [] }
                  (tr2 ++ [Call.dpiObjectType_getAttributes (some x) info.numAttributes])) ≠
              Res.fuelOut := by
          intro t2 tr2
          by_cases hn : info.numAttributes = 0
          · simp [hn]
          · simp only [hn, if_false]
            split
            · simp
            · next written hw => exact hloop _ _ _ hw
        by_cases hcoll : info.isCollection = 1
        · simp only [hcoll, if_true]
          unfold ObjectType.fromDataTypeInfoWith
          have helem := ih
            { ObjectType.zero with
              conn := t.conn,
              dpiObjectType := info.elementTypeInfo.objectType,
              OracleTypeNum := info.elementTypeInfo.oracleTypeNum,
              NativeTypeNum := info.elementTypeInfo.defaultNativeTypeNum,
              DBSize := info.elementTypeInfo.dbSizeInBytes,
              ClientSizeInBytes := info.elementTypeInfo.clientSizeInBytes,
              CharSize := info.elementTypeInfo.sizeInChars,
              Precision := info.elementTypeInfo.precision,
              Scale := info.elementTypeInfo.scale,
              FsPrecision := info.elementTypeInfo.fsPrecision }
            (tr ++ [Call.dpiObjectType_getInfo (some x)])
            (hchild _ (fun y hy => hG.1 tr x info y hinfo hcoll hy))
          simp only at helem ⊢
          generalize ObjectType.init E fuel _ _ = r at helem ⊢
          cases r with
          | fuelOut => exact absurd rfl helem
          | panic msg => simp
          | ret v tr2 =>
            obtain ⟨elem, err⟩ := v
            cases err with
            | some e => simp
            | none => exact htail _ _
        · simp only [hcoll, if_false]
          exact htail { t with dpiObjectType := some x, Schema := info.schema, Name := info.name,
                               CollectionOf := none } (tr ++ [Call.dpiObjectType_getInfo (some x)])
/-- On a provider type graph without cycles `GetObjectType` terminates: from
some amount of fuel on it returns or panics. -/
theorem getObjectType_terminates_ranked (E : Env) (rank : Nat → Nat) (hG : RankedGraph E rank)
    (c : conn) (name : String) (tr : Trace) :
    ∃ fuel : Nat, ∀ fuel1 : Nat, fuel ≤ fuel1 →
      conn.GetObjectType E fuel1 c name tr ≠ Res.fuelOut := by
  unfold conn.GetObjectType
  simp only
  cases hl : mapLookup (normalizeName E name) c.objTypes with
  | some o => exact ⟨0, fun _ _ => by simp⟩
  | none =>
    cases hb : E.dpiConn_getObjectType tr c.dpiConn (normalizeName E name) with
    | none => exact ⟨0, fun _ _ => by simp⟩
    | some objType =>
      refine ⟨fuelNeeded rank objType, fun fuel1 hf => ?_⟩
      have hinit := init_terminates_ranked E rank hG fuel1
        { ObjectType.zero with conn := some c.id, dpiObjectType := objType }
        (tr ++ [Call.dpiConn_getObjectType c.dpiConn (normalizeName E name)]) hf
      simp only at hinit ⊢
      generalize ObjectType.init E fuel1 _ _ = r at hinit ⊢
      cases r with
      | fuelOut => exact absurd rfl hinit
      | panic msg => simp
      | ret v tr2 =>
        obtain ⟨t, err⟩ := v
        cases err <;> simp

/-- The provider of `structEnv` has a type graph without cycles. -/
theorem structEnv_ranked : RankedGraph structEnv (fun _ => 0) := by
  constructor
  · intro tr h info e hinfo hcoll _
    simp only [structEnv, Option.some.injEq] at hinfo
    subst hinfo
    simp [structInfo] at hcoll
  · intro tr tr1 h n written a ai s _ _ hai hs
    simp only [structEnv, Option.some.injEq] at hai
    subst hai
    simp [scalarInfo] at hs

/-- The provider of `nodeEnv` admits no rank: its type graph has the cycle
`NODE`, `NODE_LIST`, `NODE`. -/
theorem nodeEnv_not_ranked : ¬ ∃ rank : Nat → Nat, RankedGraph nodeEnv rank := by
  rintro ⟨rank, h1, h2⟩
  have ha : rank 1 < rank 2 := h1 [] 2 _ 1 (nodeEnv_getInfo_list []) rfl rfl
  have hb : rank 2 < rank 1 :=
    h2 [] [] 1 1 [some 3] (some 3) _ 2 (nodeEnv_getAttributes [] (some 1) 1) (by decide)
      (nodeEnv_attrInfo [] (some 3)) rfl
  omega

end Goracle
